import Mathlib

/-!
Verification development for the Bryant/Carrier Infinity HVAC API client
(`bryant.py`).  The client's data model (XML documents, OAuth 1.0a signing,
the two-phase hold-transition protocol) is shallowly embedded below; HTTP
traffic is modelled by environments supplying the responses the server
would return, and each network-visible step is recorded in a trace.
-/

namespace Bryant

/-- Model of `xml.etree.ElementTree.Element`: a tag, an attribute list
(`attrib`), an optional text (`Element.text` is `None` or a string) and an
ordered list of children. -/
structure XElem where
  tag : String
  attrs : List (String × String)
  text : Option String
  children : List XElem

/-- `Element.find(t)`: the first direct child whose tag is `t`. -/
def findTag (e : XElem) (t : String) : Option XElem :=
  e.children.find? (fun c => c.tag == t)

/-- `Element.findall(t)`: all direct children whose tag is `t`, in order. -/
def findallTag (e : XElem) (t : String) : List XElem :=
  e.children.filter (fun c => c.tag == t)

/-- `Element.get(k)`: attribute lookup, `None` when absent. -/
def getAttr (e : XElem) (k : String) : Option String :=
  (e.attrs.find? (fun p => p.1 == k)).map (fun p => p.2)

/-- Apply `f` to the first element of the list satisfying `p`, leaving the
rest unchanged.  This is the functional rendering of Python's in-place
mutation of the element returned by a `find`-style lookup. -/
def mapFirst {α : Type} (p : α → Bool) (f : α → α) : List α → List α
  | [] => []
  | a :: as => if p a then f a :: as else a :: mapFirst p f as

/-- Mutate (functionally) the first child with tag `t`. -/
def mapFirstTag (e : XElem) (t : String) (f : XElem → XElem) : XElem :=
  { e with children := mapFirst (fun c => c.tag == t) f e.children }

/-- The pattern `x = parent.find(t); if x is None: x = ET.SubElement(parent, t)`:
guarantee a child with tag `t`, appending a fresh empty one when absent.
`ET.SubElement` appends at the end of the children. -/
def ensureChild (e : XElem) (t : String) : XElem :=
  if (findTag e t).isSome then e
  else { e with children := e.children ++ [⟨t, [], none, []⟩] }

/-- The pattern `x = parent.find(t); if x is None: x = ET.SubElement(parent, t);
x.text = s`: set the text of the first child with tag `t`, creating it when
absent. -/
def setOrCreateText (e : XElem) (t : String) (s : String) : XElem :=
  if (findTag e t).isSome then mapFirstTag e t (fun c => { c with text := some s })
  else { e with children := e.children ++ [⟨t, [], some s, []⟩] }

/-- The zone selected by `for z in zones_elem.findall('zone'): if z.get('id')
== zone_id` — as a predicate on an arbitrary child. -/
def zonePredB (zid : String) (c : XElem) : Bool :=
  c.tag == "zone" && getAttr c "id" == some zid

/-- The manual activity selected by `for act in activities.findall('activity'):
if act.get('id') == 'manual'` — as a predicate on an arbitrary child. -/
def manPredB (c : XElem) : Bool :=
  c.tag == "activity" && getAttr c "id" == some "manual"

/-- Mutate (functionally) the zone with id `zid` inside the document's first
`zones` child — the element Python's loop would have selected. -/
def updateZone (config : XElem) (zid : String) (f : XElem → XElem) : XElem :=
  mapFirstTag config "zones"
    (fun zs => { zs with children := mapFirst (zonePredB zid) f zs.children })

/-- Mutate (functionally) the `manual` activity inside the zone's first
`activities` child — the element Python's loop would have selected. -/
def updateManual (z : XElem) (f : XElem → XElem) : XElem :=
  mapFirstTag z "activities"
    (fun acts => { acts with children := mapFirst manPredB f acts.children })

/-! ## Queries used to state properties of documents -/

/-- The zone with id `zid` of the document's first `zones` child, mirroring
the lookup loop in `set_temperature` (lines 386-395). -/
def zoneOf (config : XElem) (zid : String) : Option XElem :=
  (findTag config "zones").bind
    (fun zs => (findallTag zs "zone").find? (fun z => getAttr z "id" == some zid))

/-- A named child of the zone with id `zid`. -/
def qZoneChild (config : XElem) (zid t : String) : Option XElem :=
  (zoneOf config zid).bind (fun z => findTag z t)

/-- The text of a named child of the zone with id `zid`; `none` when the
zone or the child is absent, `some txt` (with `txt : Option String`) when
present. -/
def qZoneChildText (config : XElem) (zid t : String) : Option (Option String) :=
  (qZoneChild config zid t).map (fun c => c.text)

/-- The `manual` activity inside one zone element, mirroring the lookup
loop in `set_temperature` (lines 402-415). -/
def manualOfZone (z : XElem) : Option XElem :=
  (findTag z "activities").bind
    (fun acts => (findallTag acts "activity").find? (fun a => getAttr a "id" == some "manual"))

/-- The `manual` activity of the zone with id `zid`. -/
def qManual (config : XElem) (zid : String) : Option XElem :=
  (zoneOf config zid).bind manualOfZone

/-- A named child of the `manual` activity of the zone with id `zid`. -/
def qManualChild (config : XElem) (zid t : String) : Option XElem :=
  (qManual config zid).bind (fun m => findTag m t)

/-- The text of a named child of the `manual` activity. -/
def qManualChildText (config : XElem) (zid t : String) : Option (Option String) :=
  (qManualChild config zid t).map (fun c => c.text)

/-- `hold.text == 'on'` for the zone's `hold` child (line 423), `False` when
the zone has no `hold` child (a fresh `SubElement` has `text is None`). -/
def holdIsOn (z : XElem) : Bool :=
  match findTag z "hold" with
  | some h => h.text == some "on"
  | none => false

/-! ## Signature engine (lines 32-34 and 96-122) -/

/-- `CONSUMER_SECRET` (line 34). -/
def CONSUMER_SECRET : String := "0f5ur7d89sjv8d45"

/-- `CONSUMER_KEY` (line 33). -/
def CONSUMER_KEY : String := "8j30j19aj103911h"

/-- The OAuth signing key of line 113: the shared consumer secret, an
ampersand, and the client's current `access_token`. -/
def signingKey (access_token : String) : String :=
  CONSUMER_SECRET ++ "&" ++ access_token

/-- Upper-case hex digit of a value below 16 (percent-encoding uses
upper-case hex, as `urllib.parse.quote` does). -/
def hexDigitU (n : Nat) : Char :=
  if n < 10 then Char.ofNat (48 + n) else Char.ofNat (55 + n)

/-- The bytes `urllib.parse.quote` leaves unencoded with `safe=""`:
ASCII letters, digits, and `_ . - ~`. -/
def quoteSafeByte (b : Nat) : Bool :=
  (65 ≤ b && b ≤ 90) || (97 ≤ b && b ≤ 122) || (48 ≤ b && b ≤ 57) ||
    b == 95 || b == 46 || b == 45 || b == 126

/-- `urllib.parse.quote(s, safe="")`: percent-encode every UTF-8 byte of
`s` outside the always-safe set. -/
def pyQuote (s : String) : String :=
  s.toUTF8.toList.foldl
    (fun acc b =>
      if quoteSafeByte b.toNat then acc.push (Char.ofNat b.toNat)
      else acc ++ "%" ++ String.singleton (hexDigitU (b.toNat / 16)) ++
        String.singleton (hexDigitU (b.toNat % 16)))
    ""

/-- One left-to-right pass of Python's `str.replace`: replace each
non-overlapping leftmost occurrence of `pat` by `rep`.  (Every call in the
source uses a non-empty `pat`; the `pat = []` arm merely keeps the
function total.) -/
def replCore (pat rep : List Char) : List Char → List Char
  | [] => []
  | c :: cs =>
    if pat.isPrefixOf (c :: cs) then
      match pat with
      | [] => c :: replCore pat rep cs
      | _ :: pt => rep ++ replCore pat rep (cs.drop pt.length)
    else c :: replCore pat rep cs
  termination_by l => l.length
  decreasing_by
    all_goals simp only [List.length_cons, List.length_drop]
    all_goals omega

/-- Python's `s.replace(pat, rep)`. -/
def pyReplace (s pat rep : String) : String :=
  ⟨replCore pat.data rep.data s.data⟩

/-- The scheme-normalized URL of lines 104-105: strip every `https://` and
`http://` occurrence and force an `http://` prefix. -/
def sigUrlOf (url : String) : String :=
  "http://" ++ pyReplace (pyReplace url "https://" "") "http://" ""

/-- Insert into a `le`-sorted list (stable). -/
def insertLe {α : Type} (le : α → α → Bool) (a : α) : List α → List α
  | [] => [a]
  | b :: bs => if le a b then a :: b :: bs else b :: insertLe le a bs

/-- Stable sort by `le` (Python's `sorted`). -/
def sortLe {α : Type} (le : α → α → Bool) (l : List α) : List α :=
  l.foldr (insertLe le) []

/-- Python's tuple comparison on `(key, value)` string pairs, used by
`sorted(params.items())` (line 99). -/
def pairLe (a b : String × String) : Bool :=
  decide (a.1 < b.1) || (a.1 == b.1 && decide (a.2 ≤ b.2))

/-- `_generate_oauth_signature` (lines 96-122).  The HMAC-SHA1-then-base64
step (lines 116-122) is abstracted as the function argument `hmacSha1B64`
from signing key and base string to the encoded signature; everything the
claims speak about (parameter canonicalization, the base string, the
signing key) is computed explicitly. -/
def generate_oauth_signature (hmacSha1B64 : String → String → String)
    (access_token : String) (method url : String)
    (params : List (String × String)) : String :=
  let sorted_params := sortLe pairLe params
  let param_string :=
    String.intercalate "&"
      (sorted_params.map (fun p => pyQuote p.1 ++ "=" ++ pyQuote p.2))
  let sig_url := sigUrlOf url
  let base_string :=
    String.intercalate "&" [method.toUpper, pyQuote sig_url, pyQuote param_string]
  let signing_key := signingKey access_token
  hmacSha1B64 signing_key base_string

/-! ## Session/transport layer (`_request`, lines 153-189, and `login`,
lines 191-213) -/

/-- A server response, reduced to what the retry logic and `login` inspect:
the status code, and the `accessToken` extracted from a login response body
(`none` when `result`/`accessToken` is missing or the body is not a login
body). -/
structure Resp where
  status : Nat
  token : Option String
  deriving DecidableEq

/-- Which endpoint a request addresses; the retry logic only needs to know
whether a request is the authentication request that `login` issues. -/
inductive ReqKind where
  | auth
  | other (path : String)
  deriving DecidableEq

mutual

/--
`_request` and `login`, embedded with explicit fuel because their mutual
recursion (a 401 makes `_request` call `login`, and `login` issues its own
request through `_request` with `_retry=True`, line 199) is not structurally
terminating.  `none` models non-termination: no fuel bound suffices.

Arguments: `srv n` is the response the server gives to the `n`-th HTTP
request of the session; `n` counts requests issued so far; `tok` is
`self.access_token`.  The result carries the returned response, the new
request counter, the new token, and the signing keys (line 113) used for
each HTTP request issued during the call, in order.
-/
def request (srv : Nat → Resp) : Nat → Nat → String → ReqKind → Bool →
    Option (Resp × Nat × String × List String)
  | 0, _, _, _, _ => none
  | fuel + 1, n, tok, req, retry =>
    let key := signingKey tok
    let resp := srv n
    if resp.status == 401 && retry then
      match login srv fuel (n + 1) tok with
      | none => none
      | some (ok, n1, tok1, keys1) =>
        if ok then
          match request srv fuel n1 tok1 req false with
          | none => none
          | some (r2, n2, tok2, keys2) => some (r2, n2, tok2, key :: (keys1 ++ keys2))
        else some (resp, n1, tok1, key :: keys1)
    else some (resp, n + 1, tok, [key])

/-- `login` (lines 191-213): issue the authentication request through
`_request` (with the default `_retry=True`), and on a 200 response carrying
an `accessToken` store it in `self.access_token` and report success. -/
def login (srv : Nat → Resp) : Nat → Nat → String →
    Option (Bool × Nat × String × List String)
  | 0, _, _ => none
  | fuel + 1, n, tok =>
    match request srv fuel n tok ReqKind.auth true with
    | none => none
    | some (resp, n1, tok1, keys1) =>
      if resp.status == 200 then
        match resp.token with
        | some t => some (true, n1, t, keys1)
        | none => some (false, n1, tok1, keys1)
      else some (false, n1, tok1, keys1)

end

/-! ## Configuration mutation protocol (`set_temperature`, lines 365-512,
and `set_mode`, lines 514-549) -/

/-- Network-visible steps of the mutation protocol, recorded in order:
the keepalive (`activate`), a config fetch (`get_config`), a config push
(the POST of lines 435/503/542, carrying the pushed document), and the
`time.sleep` pause (line 442, with its duration in seconds). -/
inductive Action where
  | activate
  | getConfig
  | pushConfig (doc : XElem)
  | sleep (secs : Nat)

/-- Outcome of `set_temperature`: `success` / `failure msg` are the
`return True` / `print(msg); return False` paths, and `attrError` is an
uncaught `AttributeError` from attribute access on `None` (the crash paths
after the re-fetch, lines 451-465). -/
inductive STOut where
  | success
  | failure (msg : String)
  | attrError

/-- Environment: the server's behaviour during one `set_temperature` /
`set_mode` call.  `configAt i` is the parsed document the `i`-th
`get_config` of this call returns (`none`: the GET did not return 200);
`pushOkAt i` tells whether the `i`-th config POST of this call returns
status 200. -/
structure STEnv where
  configAt : Nat → Option XElem
  pushOkAt : Nat → Bool

/-- Lines 429-431: clear the `holdActivity` text when that element exists
(`if hold_activity_elem is not None`). -/
def clearHoldActivity (z1 : XElem) : XElem :=
  match findTag z1 "holdActivity" with
  | some _ => mapFirstTag z1 "holdActivity" (fun ha => { ha with text := some "" })
  | none => z1

/-- The phase-one edit of lines 425-431: set the zone's `hold` text to
`off`, then clear the `holdActivity` text when that element exists. -/
def clearHoldZone (z : XElem) : XElem :=
  clearHoldActivity (mapFirstTag z "hold" (fun h => { h with text := some "off" }))

/-- Lines 495-497 and 535-537: stamp the document-level `timestamp` text
(when the element exists) with the current UTC time string. -/
def stampTimestamp (c : XElem) (now : String) : XElem :=
  match findTag c "timestamp" with
  | some _ => mapFirstTag c "timestamp" (fun ts => { ts with text := some now })
  | none => c

/-- Lines 530-532: set the `mode` text when the element exists. -/
def setModeText (c : XElem) (mode : String) : XElem :=
  match findTag c "mode" with
  | some _ => mapFirstTag c "mode" (fun m => { m with text := some mode })
  | none => c

/-- The tail of the document edit (lines 486-497): set `otmr` to the
hold-until value (`u` is `hold_until or ''`), flip `hold` to `on`, and
stamp the document's `timestamp` (when present) with `now`. -/
def phase2Tail (c3 : XElem) (zid u now : String) : XElem :=
  let c4 := updateZone c3 zid (fun z => setOrCreateText z "otmr" u)
  let c5 := updateZone c4 zid (fun z =>
    mapFirstTag z "hold" (fun h => { h with text := some "on" }))
  stampTimestamp c5 now

/-- The document edit of lines 467-497, applied to the current config:
set `holdActivity` to `manual` (creating it if absent), write the supplied
setpoints onto the manual activity formatted by `fmt` (the model of
Python's one-decimal formatting `f'\x7bv:.1f\x7d'`), set `otmr` to
`hold_until or ''` (for `hold_until` equal to `None` or `''` both give
`''`, i.e. `holdUntil.getD ""`), flip `hold` to `on`, and stamp the
document's `timestamp` (when present) with `now`. -/
def phase2Doc {α : Type} (config : XElem) (zid : String) (heat cool : Option α)
    (fmt : α → String) (holdUntil : Option String) (now : String) : XElem :=
  let c1 := updateZone config zid (fun z => setOrCreateText z "holdActivity" "manual")
  let c2 := match heat with
    | some hv => updateZone c1 zid (fun z =>
        updateManual z (fun m => setOrCreateText m "htsp" (fmt hv)))
    | none => c1
  let c3 := match cool with
    | some cv => updateZone c2 zid (fun z =>
        updateManual z (fun m => setOrCreateText m "clsp" (fmt cv)))
    | none => c2
  phase2Tail c3 zid (holdUntil.getD "") now

/-- Lines 467-512, shared by both branches of `set_temperature`: the final
edit-and-push.  The two `attrError` guards reproduce the crash points of
the post-re-fetch path: `manual_activity.find(...)` when the manual
activity was not re-found but a setpoint was supplied (lines 475/481), and
`hold.text = 'on'` when the re-fetched zone has no `hold` child (line 492);
on the first-fetch path both conditions are provably false.  `pushIdx`
indexes the config POST this branch issues.  Failure messages keep the
fixed prefix of the printed text; the interpolated status-code/body detail
is omitted from the model. -/
def phase2 {α : Type} (env : STEnv) (pushIdx : Nat) (config : XElem) (zid : String)
    (heat cool : Option α) (fmt : α → String) (holdUntil : Option String)
    (now : String) (tr : List Action) : STOut × List Action :=
  if (heat.isSome || cool.isSome) && !(qManual config zid).isSome then
    (STOut.attrError, tr)
  else if !(qZoneChild config zid "hold").isSome then (STOut.attrError, tr)
  else
    let d := phase2Doc config zid heat cool fmt holdUntil now
    let tr2 := tr ++ [Action.pushConfig d]
    if env.pushOkAt pushIdx then (STOut.success, tr2 ++ [Action.activate])
    else (STOut.failure "Failed to set temperature", tr2)

/--
`set_temperature` (lines 365-512).  `env` supplies the server's responses;
`fmt` models the `:.1f` float formatting; `now` the UTC timestamp string of
line 497.  Setpoints have an abstract type `α` since only their formatted
rendering reaches the document.  Returns the outcome and the ordered trace
of network-visible actions (`get_config` performs `activate` then the GET,
lines 253-259).
-/
def set_temperature {α : Type} (env : STEnv) (fmt : α → String) (now : String)
    (zoneId : String) (heat cool : Option α) (holdUntil : Option String) :
    STOut × List Action :=
  let tr0 := [Action.activate, Action.getConfig]
  match env.configAt 0 with
  | none => (STOut.failure "Failed to get current config", tr0)
  | some config =>
    match findTag config "zones" with
    | none => (STOut.failure "No zones found in config", tr0)
    | some zonesElem =>
      match (findallTag zonesElem "zone").find? (fun z => getAttr z "id" == some zoneId) with
      | none => (STOut.failure ("Zone " ++ zoneId ++ " not found"), tr0)
      | some zoneElem =>
        match findTag zoneElem "activities" with
        | none => (STOut.failure "No activities found", tr0)
        | some activities =>
          match (findallTag activities "activity").find? (fun a => getAttr a "id" == some "manual") with
          | none => (STOut.failure "Manual activity not found", tr0)
          | some _ =>
            let wasHoldOn := holdIsOn zoneElem
            let config1 := updateZone config zoneId (fun z => ensureChild z "hold")
            if wasHoldOn then
              let dOff := updateZone config1 zoneId clearHoldZone
              let tr1 := tr0 ++ [Action.pushConfig dOff]
              if !(env.pushOkAt 0) then (STOut.failure "Failed to clear hold", tr1)
              else
                let tr2 := tr1 ++ [Action.sleep 3, Action.activate, Action.getConfig]
                match env.configAt 1 with
                | none => (STOut.failure "Failed to get config after clearing hold", tr2)
                | some configB =>
                  match findTag configB "zones" with
                  | none => (STOut.attrError, tr2)
                  | some zsB =>
                    match (findallTag zsB "zone").find? (fun z => getAttr z "id" == some zoneId) with
                    | none => (STOut.attrError, tr2)
                    | some zB =>
                      match findTag zB "activities" with
                      | none => (STOut.attrError, tr2)
                      | some _ =>
                        phase2 env 1 configB zoneId heat cool fmt holdUntil now tr2
            else
              phase2 env 0 config1 zoneId heat cool fmt holdUntil now tr0

/-- `set_mode` (lines 514-549): fetch config, set the `mode` text when the
element exists, stamp the `timestamp` when present, push once.  Returns
whether the push succeeded, plus the action trace. -/
def set_mode (env : STEnv) (mode now : String) : Bool × List Action :=
  let tr0 := [Action.activate, Action.getConfig]
  match env.configAt 0 with
  | none => (false, tr0)
  | some config =>
    (env.pushOkAt 0, tr0 ++ [Action.pushConfig (stampTimestamp (setModeText config mode) now)])

/-! ## Telemetry accessors (lines 59-74, 221-243, 270-283, 293-363) -/

/-- The `Zone` dataclass (lines 59-74).  Numeric fields are rationals in
the model; `name` is `Option String` because a config `name` element whose
text is `None` is stored as-is in `config_zones` (line 330). -/
structure Zone where
  id : String
  name : Option String
  temp : ℚ
  humidity : ℚ
  activity : String
  heat_setpoint : ℚ
  cool_setpoint : ℚ
  fan : String
  conditioning : String

/-- The inner `get_text` of `get_zones` (lines 340-342): the child's text
when the child exists and its text is non-empty (Python truthiness), else
the default. -/
def zoneGetText (ze : XElem) (n d : String) : String :=
  match findTag ze n with
  | some e =>
    match e.text with
    | some t => if t == "" then d else t
    | none => d
  | none => d

/-- The inner `get_float` of `get_zones` (lines 344-348) with its only
used default `0.0` (`str(0.0) = "0.0"`): parse the text with `pf` (the
model of Python's `float`), falling back to `0` on a parse error. -/
def zoneGetFloat (pf : String → Option ℚ) (ze : XElem) (n : String) : ℚ :=
  match pf (zoneGetText ze n "0.0") with
  | some x => x
  | none => 0

/-- The `config_zones` dict built in lines 323-330: zone id to zone name
(`name` element's text when the element exists, else the fallback
`Zone <id>`), in document order. -/
def configZonesOf (config : Option XElem) : List (String × Option String) :=
  match config with
  | none => []
  | some c =>
    match findTag c "zones" with
    | none => []
    | some zs =>
      (findallTag zs "zone").map (fun z =>
        let zid := (getAttr z "id").getD ""
        (zid, match findTag z "name" with
              | some ne => ne.text
              | none => some ("Zone " ++ zid)))

/-- Python dict lookup with default over an insertion list: the last
binding of a key wins (`dict.get(k, d)`, line 352). -/
def dictGet (l : List (String × Option String)) (k : String) (d : Option String) :
    Option String :=
  match l.reverse.find? (fun p => p.1 == k) with
  | some p => p.2
  | none => d

/-- The `Zone` value built from one status `zone` element (lines 350-360). -/
def buildZone (pf : String → Option ℚ) (cfg : List (String × Option String))
    (ze : XElem) : Zone :=
  let zid := (getAttr ze "id").getD ""
  { id := zid
    name := dictGet cfg zid (some ("Zone " ++ zid))
    temp := zoneGetFloat pf ze "rt"
    humidity := zoneGetFloat pf ze "rh"
    activity := zoneGetText ze "currentActivity" "unknown"
    heat_setpoint := zoneGetFloat pf ze "htsp"
    cool_setpoint := zoneGetFloat pf ze "clsp"
    fan := zoneGetText ze "fan" "auto"
    conditioning := zoneGetText ze "zoneconditioning" "idle" }

/-- `get_present_zones` (lines 293-306) applied to the fetched profile
document: ids of the profile zones whose `present` text is `on`.  (Python
collects them into a set; the model keeps the list, whose emptiness and
membership are what `get_zones` consumes.) -/
def get_present_zones (profile : Option XElem) : List String :=
  match profile with
  | none => []
  | some p =>
    match findTag p "zones" with
    | none => []
    | some zs =>
      ((findallTag zs "zone").filter (fun z =>
        match findTag z "present" with
        | some pe => pe.text == some "on"
        | none => false)).map (fun z => (getAttr z "id").getD "")

/-- The skip test of line 336: `if present_zones and zone_id not in
present_zones: continue` — a zone is kept when the present set is empty
(falsy) or contains its id. -/
def keepZone (present : List String) (zid : String) : Bool :=
  if present.isEmpty then true else present.contains zid

/-- `get_zones` (lines 308-363) applied to the three fetched documents:
join the status zones with the config zone names, skipping zones the
present-zone set (when non-empty) does not contain. -/
def get_zones (pf : String → Option ℚ)
    (status config profile : Option XElem) : List Zone :=
  match status with
  | none => []
  | some st =>
    let present := get_present_zones profile
    match findTag st "zones" with
    | none => []
    | some zs =>
      let cfg := configZonesOf config
      ((findallTag zs "zone").filter
        (fun ze => keepZone present ((getAttr ze "id").getD ""))).map
        (buildZone pf cfg)

/-- The mode normalization of `get_mode` (lines 276-282), on the raw
`mode` text (which may be `None`). -/
def normalizeMode (raw : Option String) : Option String :=
  if raw == some "gasheat" || raw == some "electric" || raw == some "hpheat" then
    some "heat"
  else if raw == some "dehumidify" then some "cool"
  else raw

/-- `get_mode` (lines 270-283) applied to the fetched status document:
`None` without a status or `mode` element, else the normalized raw text. -/
def get_mode (status : Option XElem) : Option String :=
  match status with
  | none => none
  | some st =>
    match findTag st "mode" with
    | none => none
    | some m => normalizeMode m.text

/-- `get_systems` (lines 221-243).  `cache` is `self._systems`; `locResp`
is the outcome of the locations request (`none`: non-200 status, `some
serials`: the serials parsed from the Atom links — the XML-splitting of
lines 231-240 is abstracted to its resulting list).  Returns the returned
list, the new cache, and whether a discovery request was issued. -/
def get_systems (cache : List String) (locResp : Option (List String)) :
    List String × List String × Bool :=
  if !cache.isEmpty then (cache, cache, false)
  else
    match locResp with
    | none => ([], cache, true)
    | some systems => (systems, systems, true)

/-- The OAuth signature base string of lines 98-110 (the second argument
`_generate_oauth_signature` passes to HMAC-SHA1). -/
def baseStringOf (method url : String) (params : List (String × String)) : String :=
  let sorted_params := sortLe pairLe params
  let param_string :=
    String.intercalate "&"
      (sorted_params.map (fun p => pyQuote p.1 ++ "=" ++ pyQuote p.2))
  String.intercalate "&" [method.toUpper, pyQuote (sigUrlOf url), pyQuote param_string]

/-! ## Concrete sample documents, used to instantiate the theorems -/

/-- A `manual` activity element with heat 68.0 and cool 74.0. -/
def manualActW : XElem :=
  ⟨"activity", [("id", "manual")], none,
    [⟨"htsp", [], some "68.0", []⟩, ⟨"clsp", [], some "74.0", []⟩]⟩

/-- An `activities` element holding the manual activity. -/
def actsW : XElem := ⟨"activities", [], none, [manualActW]⟩

/-- Zone 1 with hold ON. -/
def zoneOnW : XElem :=
  ⟨"zone", [("id", "1")], none,
    [actsW, ⟨"hold", [], some "on", []⟩, ⟨"holdActivity", [], some "manual", []⟩]⟩

/-- Zone 1 with hold OFF. -/
def zoneOffW : XElem :=
  ⟨"zone", [("id", "1")], none,
    [actsW, ⟨"hold", [], some "off", []⟩, ⟨"holdActivity", [], some "", []⟩]⟩

/-- Config document whose zone 1 has hold ON. -/
def cfgOnW : XElem :=
  ⟨"config", [], none,
    [⟨"zones", [], none, [zoneOnW]⟩, ⟨"timestamp", [], some "T", []⟩]⟩

/-- Config document whose zone 1 has hold OFF. -/
def cfgOffW : XElem :=
  ⟨"config", [], none,
    [⟨"zones", [], none, [zoneOffW]⟩, ⟨"timestamp", [], some "T", []⟩]⟩

/-- Server behaviour: first fetch returns the hold-ON config, the re-fetch
returns the hold-OFF config, every push succeeds. -/
def envOnW : STEnv :=
  ⟨fun i => if i == 0 then some cfgOnW else some cfgOffW, fun _ => true⟩

/-- Server behaviour: every fetch returns the hold-OFF config, every push
succeeds. -/
def envOffW : STEnv := ⟨fun _ => some cfgOffW, fun _ => true⟩

/-- A status document with a single zone of id `1`. -/
def statusW : XElem :=
  ⟨"status", [], none, [⟨"zones", [], none, [⟨"zone", [("id", "1")], none, []⟩]⟩]⟩

/-- A profile document marking zone `1` present. -/
def profW : XElem :=
  ⟨"system", [], none,
    [⟨"zones", [], none,
      [⟨"zone", [("id", "1")], none, [⟨"present", [], some "on", []⟩]⟩]⟩]⟩

/-- `"https://".data`, spelled out. -/
def httpsChars : List Char := ['h', 't', 't', 'p', 's', ':', '/', '/']

/-- `"http://".data`, spelled out. -/
def httpChars : List Char := ['h', 't', 't', 'p', ':', '/', '/']

/-! # Theorems -/

/-! ## Evaluation lemmas for the mutation protocol -/

/-! ## Replacement lemmas for the scheme normalization (C4) -/

theorem isPrefixOf_append_self (as bs : List Char) :
    as.isPrefixOf (as ++ bs) = true := by
  induction as with
  | nil => simp
  | cons a as ih => simp [List.isPrefixOf, ih]

theorem replCore_cons_of_neg (pat rep : List Char) (c : Char) (cs : List Char)
    (h : pat.isPrefixOf (c :: cs) = false) :
    replCore pat rep (c :: cs) = c :: replCore pat rep cs := by
  rw [replCore.eq_def]
  simp [h]

theorem replCore_append_self (p : Char) (pt rep l : List Char) :
    replCore (p :: pt) rep ((p :: pt) ++ l) = rep ++ replCore (p :: pt) rep l := by
  rw [replCore.eq_def]
  simp [isPrefixOf_append_self, List.drop_left]

theorem replCore_https_httpHead (rep l : List Char) :
    replCore httpsChars rep (httpChars ++ l) = httpChars ++ replCore httpsChars rep l := by
  show replCore httpsChars rep ('h' :: 't' :: 't' :: 'p' :: ':' :: '/' :: '/' :: l) =
    'h' :: 't' :: 't' :: 'p' :: ':' :: '/' :: '/' :: replCore httpsChars rep l
  rw [replCore_cons_of_neg httpsChars rep 'h'
      ('t' :: 't' :: 'p' :: ':' :: '/' :: '/' :: l) rfl,
    replCore_cons_of_neg httpsChars rep 't' ('t' :: 'p' :: ':' :: '/' :: '/' :: l) rfl,
    replCore_cons_of_neg httpsChars rep 't' ('p' :: ':' :: '/' :: '/' :: l) rfl,
    replCore_cons_of_neg httpsChars rep 'p' (':' :: '/' :: '/' :: l) rfl,
    replCore_cons_of_neg httpsChars rep ':' ('/' :: '/' :: l) rfl,
    replCore_cons_of_neg httpsChars rep '/' ('/' :: l) rfl,
    replCore_cons_of_neg httpsChars rep '/' l rfl]

theorem stripSchemes_eq (r : List Char) :
    replCore httpChars [] (replCore httpsChars [] (httpsChars ++ r)) =
    replCore httpChars [] (replCore httpsChars [] (httpChars ++ r)) := by
  have e1 : replCore httpsChars [] (httpsChars ++ r) = replCore httpsChars [] r := by
    simpa [httpsChars] using
      replCore_append_self 'h' ['t', 't', 'p', 's', ':', '/', '/'] [] r
  have e2 : replCore httpsChars [] (httpChars ++ r) =
      httpChars ++ replCore httpsChars [] r := replCore_https_httpHead [] r
  have e3 : replCore httpChars [] (httpChars ++ replCore httpsChars [] r) =
      replCore httpChars [] (replCore httpsChars [] r) := by
    simpa [httpChars] using
      replCore_append_self 'h' ['t', 't', 'p', ':', '/', '/'] []
        (replCore httpsChars [] r)
  rw [e1, e2, e3]

theorem sigUrlOf_scheme (rest : String) :
    sigUrlOf ("https://" ++ rest) = sigUrlOf ("http://" ++ rest) := by
  have h1 : ("https://" ++ rest).data = httpsChars ++ rest.data := by
    rw [String.data_append]; rfl
  have h2 : ("http://" ++ rest).data = httpChars ++ rest.data := by
    rw [String.data_append]; rfl
  have hs : "https://".data = httpsChars := rfl
  have ht : "http://".data = httpChars := rfl
  have hn : "".data = ([] : List Char) := rfl
  simp only [sigUrlOf, pyReplace, h1, h2, hs, ht, hn]
  exact congrArg (fun l => "http://" ++ String.mk l) (stripSchemes_eq rest.data)

/-! ## Update/query commutation lemmas for the document model -/

theorem find?_mapFirst_same {α : Type} (p : α → Bool) (f : α → α)
    (hp : ∀ a, p a = true → p (f a) = true) :
    ∀ l : List α, (mapFirst p f l).find? p = (l.find? p).map f := by
  intro l
  induction l with
  | nil => rfl
  | cons a as ih =>
    cases hpa : p a with
    | true => simp [mapFirst, hpa, hp a hpa]
    | false => simp [mapFirst, hpa, ih]

theorem find?_mapFirst_ne {α : Type} (p q : α → Bool) (f : α → α)
    (h1 : ∀ a, p a = true → q a = false)
    (h2 : ∀ a, p a = true → q (f a) = false) :
    ∀ l : List α, (mapFirst p f l).find? q = l.find? q := by
  intro l
  induction l with
  | nil => rfl
  | cons a as ih =>
    cases hpa : p a with
    | true => simp [mapFirst, hpa, h1 a hpa, h2 a hpa]
    | false =>
      cases hqa : q a with
      | true => simp [mapFirst, hpa, hqa]
      | false => simp [mapFirst, hpa, hqa, ih]

theorem findTag_mapFirstTag_same (e : XElem) (t : String) (f : XElem → XElem)
    (hf : ∀ c, (f c).tag = c.tag) :
    findTag (mapFirstTag e t f) t = (findTag e t).map f := by
  unfold findTag mapFirstTag
  exact find?_mapFirst_same _ f
    (fun a ha => by rw [show ((f a).tag == t) = (a.tag == t) from by rw [hf a]]; exact ha) _

theorem findTag_mapFirstTag_ne (e : XElem) (t t' : String) (f : XElem → XElem)
    (hf : ∀ c, (f c).tag = c.tag) (h : t' ≠ t) :
    findTag (mapFirstTag e t f) t' = findTag e t' := by
  unfold findTag mapFirstTag
  apply find?_mapFirst_ne
  · intro a ha
    have ha' : a.tag = t := by simpa using ha
    simp [ha']
    exact Ne.symm h
  · intro a ha
    have ha' : a.tag = t := by simpa using ha
    simp [hf a, ha']
    exact Ne.symm h

theorem ensureChild_of_found (e : XElem) (t : String)
    (h : (findTag e t).isSome = true) : ensureChild e t = e := by
  unfold ensureChild
  simp [h]

theorem findTag_ensureChild_ne (e : XElem) (t t' : String) (h : t' ≠ t) :
    findTag (ensureChild e t) t' = findTag e t' := by
  unfold ensureChild
  split
  · rfl
  · unfold findTag
    simp [Ne.symm h]

theorem findTag_ensureChild_self_isSome (e : XElem) (t : String) :
    (findTag (ensureChild e t) t).isSome = true := by
  unfold ensureChild
  split
  · assumption
  · unfold findTag
    simp

theorem findTag_setOrCreateText_self (e : XElem) (t s : String) :
    (findTag (setOrCreateText e t s) t).map (fun c => c.text) = some (some s) := by
  unfold setOrCreateText
  split
  · next h =>
    rw [findTag_mapFirstTag_same e t (fun c => { c with text := some s }) (fun _ => rfl)]
    obtain ⟨c, hc⟩ := Option.isSome_iff_exists.mp h
    rw [hc]
    rfl
  · next h =>
    have hn : findTag e t = none := by
      cases hfe : findTag e t
      · rfl
      · rw [hfe] at h; simp at h
    unfold findTag at hn ⊢
    simp [hn]

theorem findTag_setOrCreateText_ne (e : XElem) (t t' s : String) (h : t' ≠ t) :
    findTag (setOrCreateText e t s) t' = findTag e t' := by
  unfold setOrCreateText
  split
  · exact findTag_mapFirstTag_ne e t t' (fun c => { c with text := some s }) (fun _ => rfl) h
  · unfold findTag
    simp [Ne.symm h]

theorem tag_ensureChild (e : XElem) (t : String) : (ensureChild e t).tag = e.tag := by
  unfold ensureChild
  split <;> rfl

theorem attrs_ensureChild (e : XElem) (t : String) :
    (ensureChild e t).attrs = e.attrs := by
  unfold ensureChild
  split <;> rfl

theorem tag_setOrCreateText (e : XElem) (t s : String) :
    (setOrCreateText e t s).tag = e.tag := by
  unfold setOrCreateText
  split <;> rfl

theorem attrs_setOrCreateText (e : XElem) (t s : String) :
    (setOrCreateText e t s).attrs = e.attrs := by
  unfold setOrCreateText
  split <;> rfl

theorem tag_clearHoldActivity (z1 : XElem) : (clearHoldActivity z1).tag = z1.tag := by
  unfold clearHoldActivity
  split <;> rfl

theorem attrs_clearHoldActivity (z1 : XElem) :
    (clearHoldActivity z1).attrs = z1.attrs := by
  unfold clearHoldActivity
  split <;> rfl

theorem tag_clearHoldZone (z : XElem) : (clearHoldZone z).tag = z.tag := by
  unfold clearHoldZone
  rw [tag_clearHoldActivity]
  rfl

theorem attrs_clearHoldZone (z : XElem) : (clearHoldZone z).attrs = z.attrs := by
  unfold clearHoldZone
  rw [attrs_clearHoldActivity]
  rfl

theorem zonePredB_congr (zid : String) (a b : XElem)
    (ht : b.tag = a.tag) (ha : b.attrs = a.attrs) :
    zonePredB zid b = zonePredB zid a := by
  simp [zonePredB, getAttr, ht, ha]

theorem manPredB_congr (a b : XElem) (ht : b.tag = a.tag) (ha : b.attrs = a.attrs) :
    manPredB b = manPredB a := by
  simp [manPredB, getAttr, ht, ha]

theorem find?_filter_bool {α : Type} (q p : α → Bool) :
    ∀ l : List α, (l.filter q).find? p = l.find? (fun a => q a && p a) := by
  intro l
  induction l with
  | nil => rfl
  | cons a as ih => cases hq : q a <;> cases hp : p a <;>
      simp [List.filter_cons, hq, hp, ih]

/-- `zoneOf` through the lookup predicate: the `findall`-then-test loop
finds the first child that is a zone with the right id. -/
theorem zoneOf_eq_find (config : XElem) (zid : String) :
    zoneOf config zid =
      (findTag config "zones").bind (fun zs => zs.children.find? (zonePredB zid)) := by
  unfold zoneOf findallTag
  cases findTag config "zones" with
  | none => rfl
  | some zs =>
    show (zs.children.filter (fun c => c.tag == "zone")).find?
        (fun z => getAttr z "id" == some zid) = zs.children.find? (zonePredB zid)
    rw [find?_filter_bool]
    rfl

theorem zoneOf_updateZone (config : XElem) (zid : String) (f : XElem → XElem)
    (hf : ∀ z, zonePredB zid z = true → zonePredB zid (f z) = true) :
    zoneOf (updateZone config zid f) zid = (zoneOf config zid).map f := by
  rw [zoneOf_eq_find, zoneOf_eq_find]
  unfold updateZone
  rw [findTag_mapFirstTag_same config "zones"
    (fun zs => { zs with children := mapFirst (zonePredB zid) f zs.children })
    (fun _ => rfl)]
  cases findTag config "zones" with
  | none => rfl
  | some zs =>
    show (mapFirst (zonePredB zid) f zs.children).find? (zonePredB zid) =
      (zs.children.find? (zonePredB zid)).map f
    exact find?_mapFirst_same (zonePredB zid) f hf zs.children

theorem zoneOf_mapFirstTag_ne (config : XElem) (zid t : String) (g : XElem → XElem)
    (hg : ∀ x, (g x).tag = x.tag) (h : t ≠ "zones") :
    zoneOf (mapFirstTag config t g) zid = zoneOf config zid := by
  unfold zoneOf
  rw [findTag_mapFirstTag_ne config t "zones" g hg (fun hh => h hh.symm)]

theorem manualOfZone_eq_find (z : XElem) :
    manualOfZone z = (findTag z "activities").bind (fun acts => acts.children.find? manPredB) := by
  unfold manualOfZone findallTag
  cases findTag z "activities" with
  | none => rfl
  | some acts =>
    show (acts.children.filter (fun c => c.tag == "activity")).find?
        (fun a => getAttr a "id" == some "manual") = acts.children.find? manPredB
    rw [find?_filter_bool]
    rfl

theorem manualOfZone_updateManual (z : XElem) (f : XElem → XElem)
    (hf : ∀ m, manPredB m = true → manPredB (f m) = true) :
    manualOfZone (updateManual z f) = (manualOfZone z).map f := by
  rw [manualOfZone_eq_find, manualOfZone_eq_find]
  unfold updateManual
  rw [findTag_mapFirstTag_same z "activities"
    (fun acts => { acts with children := mapFirst manPredB f acts.children })
    (fun _ => rfl)]
  cases findTag z "activities" with
  | none => rfl
  | some acts =>
    show (mapFirst manPredB f acts.children).find? manPredB =
      (acts.children.find? manPredB).map f
    exact find?_mapFirst_same manPredB f hf acts.children

theorem manualOfZone_mapFirstTag_ne (z : XElem) (t : String) (g : XElem → XElem)
    (hg : ∀ x, (g x).tag = x.tag) (h : t ≠ "activities") :
    manualOfZone (mapFirstTag z t g) = manualOfZone z := by
  unfold manualOfZone
  rw [findTag_mapFirstTag_ne z t "activities" g hg (fun hh => h hh.symm)]

theorem manualOfZone_setOrCreateText_ne (z : XElem) (t s : String)
    (h : t ≠ "activities") : manualOfZone (setOrCreateText z t s) = manualOfZone z := by
  unfold manualOfZone
  rw [findTag_setOrCreateText_ne z t "activities" s (fun hh => h hh.symm)]

theorem manualOfZone_ensureChild_ne (z : XElem) (t : String)
    (h : t ≠ "activities") : manualOfZone (ensureChild z t) = manualOfZone z := by
  unfold manualOfZone
  rw [findTag_ensureChild_ne z t "activities" (fun hh => h hh.symm)]

theorem findTag_updateZone_ne (config : XElem) (zid t : String) (f : XElem → XElem)
    (h : t ≠ "zones") : findTag (updateZone config zid f) t = findTag config t :=
  findTag_mapFirstTag_ne config "zones" t _ (fun _ => rfl) h

theorem tag_updateManual (z : XElem) (f : XElem → XElem) :
    (updateManual z f).tag = z.tag := rfl

theorem attrs_updateManual (z : XElem) (f : XElem → XElem) :
    (updateManual z f).attrs = z.attrs := rfl

theorem findTag_updateManual_ne (z : XElem) (g : XElem → XElem) (t' : String)
    (h : t' ≠ "activities") : findTag (updateManual z g) t' = findTag z t' :=
  findTag_mapFirstTag_ne z "activities" t' _ (fun _ => rfl) h

theorem zonePredB_setOrCreateText (zid : String) (z : XElem) (t s : String) :
    zonePredB zid (setOrCreateText z t s) = zonePredB zid z :=
  zonePredB_congr zid z _ (tag_setOrCreateText z t s) (attrs_setOrCreateText z t s)

theorem zonePredB_ensureChild (zid : String) (z : XElem) (t : String) :
    zonePredB zid (ensureChild z t) = zonePredB zid z :=
  zonePredB_congr zid z _ (tag_ensureChild z t) (attrs_ensureChild z t)

theorem zonePredB_clearHoldZone (zid : String) (z : XElem) :
    zonePredB zid (clearHoldZone z) = zonePredB zid z :=
  zonePredB_congr zid z _ (tag_clearHoldZone z) (attrs_clearHoldZone z)

theorem zonePredB_updateManual (zid : String) (z : XElem) (g : XElem → XElem) :
    zonePredB zid (updateManual z g) = zonePredB zid z :=
  zonePredB_congr zid z _ (tag_updateManual z g) (attrs_updateManual z g)

theorem zonePredB_mapFirstTag (zid : String) (z : XElem) (t : String)
    (g : XElem → XElem) :
    zonePredB zid (mapFirstTag z t g) = zonePredB zid z :=
  zonePredB_congr zid z _ rfl rfl

theorem manPredB_setOrCreateText (m : XElem) (t s : String) :
    manPredB (setOrCreateText m t s) = manPredB m :=
  manPredB_congr m _ (tag_setOrCreateText m t s) (attrs_setOrCreateText m t s)

theorem zoneOf_stampTimestamp (c : XElem) (now zid : String) :
    zoneOf (stampTimestamp c now) zid = zoneOf c zid := by
  unfold stampTimestamp
  split
  · exact zoneOf_mapFirstTag_ne c zid "timestamp" _ (fun _ => rfl) (by decide)
  · rfl

theorem setModeText_of_found (c : XElem) (mode : String) (me : XElem)
    (h : findTag c "mode" = some me) :
    setModeText c mode = mapFirstTag c "mode" (fun m => { m with text := some mode }) := by
  unfold setModeText
  rw [h]

theorem stampTimestamp_of_found (c : XElem) (now : String) (te : XElem)
    (h : findTag c "timestamp" = some te) :
    stampTimestamp c now = mapFirstTag c "timestamp" (fun ts => { ts with text := some now }) := by
  unfold stampTimestamp
  rw [h]

/-- Properties of the tail edit: `hold` ends `on`; every other zone child
apart from `otmr` and `hold` is untouched; the manual activity and all its
children are untouched. -/
theorem phase2Tail_props (c3 : XElem) (zid u now : String) (zM hM : XElem)
    (hz : zoneOf c3 zid = some zM) (hh : findTag zM "hold" = some hM) :
    qZoneChildText (phase2Tail c3 zid u now) zid "hold" = some (some "on") ∧
    (∀ t, t ≠ "otmr" → t ≠ "hold" →
      qZoneChild (phase2Tail c3 zid u now) zid t = findTag zM t) ∧
    (∀ t, qManualChild (phase2Tail c3 zid u now) zid t =
      (manualOfZone zM).bind (fun m => findTag m t)) := by
  have hz4 : zoneOf (updateZone c3 zid (fun z => setOrCreateText z "otmr" u)) zid =
      some (setOrCreateText zM "otmr" u) := by
    rw [zoneOf_updateZone _ _ _ (fun z hzp => by rwa [zonePredB_setOrCreateText]), hz]
    rfl
  have hz5 : zoneOf (updateZone (updateZone c3 zid (fun z => setOrCreateText z "otmr" u)) zid
      (fun z => mapFirstTag z "hold" (fun h => { h with text := some "on" }))) zid =
      some (mapFirstTag (setOrCreateText zM "otmr" u) "hold"
        (fun h => { h with text := some "on" })) := by
    rw [zoneOf_updateZone _ _ _
      (fun z hzp => by rwa [zonePredB_mapFirstTag zid z "hold"
        (fun h => { h with text := some "on" })]),
      hz4]
    rfl
  have hzF : zoneOf (phase2Tail c3 zid u now) zid =
      some (mapFirstTag (setOrCreateText zM "otmr" u) "hold"
        (fun h => { h with text := some "on" })) := by
    unfold phase2Tail
    rw [zoneOf_stampTimestamp]
    exact hz5
  refine ⟨?_, ?_, ?_⟩
  · unfold qZoneChildText qZoneChild
    rw [hzF]
    show ((findTag (mapFirstTag (setOrCreateText zM "otmr" u) "hold"
      (fun h => { h with text := some "on" })) "hold")).map (fun c => c.text) = some (some "on")
    rw [findTag_mapFirstTag_same _ "hold" (fun h => { h with text := some "on" }) (fun _ => rfl),
      findTag_setOrCreateText_ne zM "otmr" "hold" u (by decide), hh]
    rfl
  · intro t ht1 ht2
    unfold qZoneChild
    rw [hzF]
    show findTag (mapFirstTag (setOrCreateText zM "otmr" u) "hold"
      (fun h => { h with text := some "on" })) t = findTag zM t
    rw [findTag_mapFirstTag_ne _ "hold" t (fun h => { h with text := some "on" })
        (fun _ => rfl) ht2,
      findTag_setOrCreateText_ne zM "otmr" t u ht1]
  · intro t
    unfold qManualChild qManual
    rw [hzF]
    show (manualOfZone (mapFirstTag (setOrCreateText zM "otmr" u) "hold"
      (fun h => { h with text := some "on" }))).bind (fun m => findTag m t) =
      (manualOfZone zM).bind (fun m => findTag m t)
    rw [manualOfZone_mapFirstTag_ne _ "hold" (fun h => { h with text := some "on" })
        (fun _ => rfl) (by decide),
      manualOfZone_setOrCreateText_ne zM "otmr" u (by decide)]

/-- One setpoint-writing stage (lines 474-484): its effect on zone lookup
and on the manual activity. -/
theorem setpointStage_props (c : XElem) (zid tname s : String) (z m : XElem)
    (hz : zoneOf c zid = some z) (hm : manualOfZone z = some m) :
    zoneOf (updateZone c zid
        (fun zz => updateManual zz (fun mm => setOrCreateText mm tname s))) zid =
      some (updateManual z (fun mm => setOrCreateText mm tname s)) ∧
    manualOfZone (updateManual z (fun mm => setOrCreateText mm tname s)) =
      some (setOrCreateText m tname s) := by
  constructor
  · rw [zoneOf_updateZone _ _ _ (fun zz hzp => by rwa [zonePredB_updateManual]), hz]
    rfl
  · rw [manualOfZone_updateManual z _ (fun mm hmp => by rwa [manPredB_setOrCreateText]), hm]
    rfl

/-- Properties of the full phase-two document edit, given the located
zone, its manual activity, and its `hold` element: the final document has
`hold` on, `holdActivity` `manual`, supplied setpoints written formatted,
and unsupplied setpoints untouched. -/
theorem phase2Doc_props {α : Type} (config : XElem) (zid : String)
    (heat cool : Option α) (fmt : α → String) (holdUntil : Option String)
    (now : String) (zB mB hB : XElem)
    (hz : zoneOf config zid = some zB)
    (hman : manualOfZone zB = some mB)
    (hh : findTag zB "hold" = some hB) :
    qZoneChildText (phase2Doc config zid heat cool fmt holdUntil now) zid "hold" =
      some (some "on") ∧
    qZoneChildText (phase2Doc config zid heat cool fmt holdUntil now) zid "holdActivity" =
      some (some "manual") ∧
    (∀ hv, heat = some hv →
      qManualChildText (phase2Doc config zid heat cool fmt holdUntil now) zid "htsp" =
        some (some (fmt hv))) ∧
    (heat = none →
      qManualChildText (phase2Doc config zid heat cool fmt holdUntil now) zid "htsp" =
        (findTag mB "htsp").map (fun c => c.text)) ∧
    (∀ cv, cool = some cv →
      qManualChildText (phase2Doc config zid heat cool fmt holdUntil now) zid "clsp" =
        some (some (fmt cv))) ∧
    (cool = none →
      qManualChildText (phase2Doc config zid heat cool fmt holdUntil now) zid "clsp" =
        (findTag mB "clsp").map (fun c => c.text)) := by
  have hz1 : zoneOf (updateZone config zid
      (fun z => setOrCreateText z "holdActivity" "manual")) zid =
      some (setOrCreateText zB "holdActivity" "manual") := by
    rw [zoneOf_updateZone _ _ _ (fun z hzp => by rwa [zonePredB_setOrCreateText]), hz]
    rfl
  have f1hold : findTag (setOrCreateText zB "holdActivity" "manual") "hold" = some hB :=
    (findTag_setOrCreateText_ne zB "holdActivity" "hold" "manual" (by decide)).trans hh
  have f1man : manualOfZone (setOrCreateText zB "holdActivity" "manual") = some mB :=
    (manualOfZone_setOrCreateText_ne zB "holdActivity" "manual" (by decide)).trans hman
  have f1ha : (findTag (setOrCreateText zB "holdActivity" "manual") "holdActivity").map
      (fun c => c.text) = some (some "manual") :=
    findTag_setOrCreateText_self zB "holdActivity" "manual"
  cases heat with
  | none =>
    cases cool with
    | none =>
      have hdoc : phase2Doc config zid (none : Option α) none fmt holdUntil now =
          phase2Tail (updateZone config zid
            (fun z => setOrCreateText z "holdActivity" "manual")) zid
            (holdUntil.getD "") now := rfl
      obtain ⟨t1, t2, t3⟩ := phase2Tail_props _ zid (holdUntil.getD "") now _ hB hz1 f1hold
      refine ⟨?_, ?_, ?_, ?_, ?_, ?_⟩
      · rw [hdoc]; exact t1
      · rw [hdoc]
        unfold qZoneChildText
        rw [t2 "holdActivity" (by decide) (by decide)]
        exact f1ha
      · intro hv h; exact Option.noConfusion h
      · intro _
        rw [hdoc]
        unfold qManualChildText
        rw [t3 "htsp", f1man]
        rfl
      · intro cv h; exact Option.noConfusion h
      · intro _
        rw [hdoc]
        unfold qManualChildText
        rw [t3 "clsp", f1man]
        rfl
    | some cv =>
      have hdoc : phase2Doc config zid (none : Option α) (some cv) fmt holdUntil now =
          phase2Tail (updateZone (updateZone config zid
              (fun z => setOrCreateText z "holdActivity" "manual")) zid
              (fun zz => updateManual zz (fun mm => setOrCreateText mm "clsp" (fmt cv))))
            zid (holdUntil.getD "") now := rfl
      obtain ⟨s1, s2⟩ := setpointStage_props _ zid "clsp" (fmt cv) _ mB hz1 f1man
      have f2hold : findTag (updateManual (setOrCreateText zB "holdActivity" "manual")
          (fun mm => setOrCreateText mm "clsp" (fmt cv))) "hold" = some hB :=
        (findTag_updateManual_ne _ _ "hold" (by decide)).trans f1hold
      obtain ⟨t1, t2, t3⟩ := phase2Tail_props _ zid (holdUntil.getD "") now _ hB s1 f2hold
      refine ⟨?_, ?_, ?_, ?_, ?_, ?_⟩
      · rw [hdoc]; exact t1
      · rw [hdoc]
        unfold qZoneChildText
        rw [t2 "holdActivity" (by decide) (by decide),
          findTag_updateManual_ne _ _ "holdActivity" (by decide)]
        exact f1ha
      · intro hv h; exact Option.noConfusion h
      · intro _
        rw [hdoc]
        unfold qManualChildText
        rw [t3 "htsp", s2]
        show (findTag (setOrCreateText mB "clsp" (fmt cv)) "htsp").map (fun c => c.text) =
          (findTag mB "htsp").map (fun c => c.text)
        rw [findTag_setOrCreateText_ne mB "clsp" "htsp" (fmt cv) (by decide)]
      · intro cv' h
        injection h with h'
        subst h'
        rw [hdoc]
        unfold qManualChildText
        rw [t3 "clsp", s2]
        exact findTag_setOrCreateText_self mB "clsp" (fmt cv)
      · intro h; exact Option.noConfusion h
  | some hv =>
    obtain ⟨s1, s2⟩ := setpointStage_props _ zid "htsp" (fmt hv) _ mB hz1 f1man
    have f2hold : findTag (updateManual (setOrCreateText zB "holdActivity" "manual")
        (fun mm => setOrCreateText mm "htsp" (fmt hv))) "hold" = some hB :=
      (findTag_updateManual_ne _ _ "hold" (by decide)).trans f1hold
    have f2ha : (findTag (updateManual (setOrCreateText zB "holdActivity" "manual")
        (fun mm => setOrCreateText mm "htsp" (fmt hv))) "holdActivity").map
        (fun c => c.text) = some (some "manual") := by
      rw [findTag_updateManual_ne _ _ "holdActivity" (by decide)]
      exact f1ha
    cases cool with
    | none =>
      have hdoc : phase2Doc config zid (some hv) (none : Option α) fmt holdUntil now =
          phase2Tail (updateZone (updateZone config zid
              (fun z => setOrCreateText z "holdActivity" "manual")) zid
              (fun zz => updateManual zz (fun mm => setOrCreateText mm "htsp" (fmt hv))))
            zid (holdUntil.getD "") now := rfl
      obtain ⟨t1, t2, t3⟩ := phase2Tail_props _ zid (holdUntil.getD "") now _ hB s1 f2hold
      refine ⟨?_, ?_, ?_, ?_, ?_, ?_⟩
      · rw [hdoc]; exact t1
      · rw [hdoc]
        unfold qZoneChildText
        rw [t2 "holdActivity" (by decide) (by decide)]
        exact f2ha
      · intro hv' h
        injection h with h'
        subst h'
        rw [hdoc]
        unfold qManualChildText
        rw [t3 "htsp", s2]
        exact findTag_setOrCreateText_self mB "htsp" (fmt hv)
      · intro h; exact Option.noConfusion h
      · intro cv h; exact Option.noConfusion h
      · intro _
        rw [hdoc]
        unfold qManualChildText
        rw [t3 "clsp", s2]
        show (findTag (setOrCreateText mB "htsp" (fmt hv)) "clsp").map (fun c => c.text) =
          (findTag mB "clsp").map (fun c => c.text)
        rw [findTag_setOrCreateText_ne mB "htsp" "clsp" (fmt hv) (by decide)]
    | some cv =>
      have hdoc : phase2Doc config zid (some hv) (some cv) fmt holdUntil now =
          phase2Tail (updateZone (updateZone (updateZone config zid
              (fun z => setOrCreateText z "holdActivity" "manual")) zid
              (fun zz => updateManual zz (fun mm => setOrCreateText mm "htsp" (fmt hv)))) zid
              (fun zz => updateManual zz (fun mm => setOrCreateText mm "clsp" (fmt cv))))
            zid (holdUntil.getD "") now := rfl
      obtain ⟨u1, u2⟩ := setpointStage_props _ zid "clsp" (fmt cv) _
        (setOrCreateText mB "htsp" (fmt hv)) s1 s2
      have f3hold : findTag (updateManual (updateManual
          (setOrCreateText zB "holdActivity" "manual")
          (fun mm => setOrCreateText mm "htsp" (fmt hv)))
          (fun mm => setOrCreateText mm "clsp" (fmt cv))) "hold" = some hB :=
        (findTag_updateManual_ne _ _ "hold" (by decide)).trans f2hold
      obtain ⟨t1, t2, t3⟩ := phase2Tail_props _ zid (holdUntil.getD "") now _ hB u1 f3hold
      refine ⟨?_, ?_, ?_, ?_, ?_, ?_⟩
      · rw [hdoc]; exact t1
      · rw [hdoc]
        unfold qZoneChildText
        rw [t2 "holdActivity" (by decide) (by decide),
          findTag_updateManual_ne _ _ "holdActivity" (by decide)]
        exact f2ha
      · intro hv' h
        injection h with h'
        subst h'
        rw [hdoc]
        unfold qManualChildText
        rw [t3 "htsp", u2]
        show (findTag (setOrCreateText (setOrCreateText mB "htsp" (fmt hv)) "clsp" (fmt cv))
          "htsp").map (fun c => c.text) = some (some (fmt hv))
        rw [findTag_setOrCreateText_ne _ "clsp" "htsp" (fmt cv) (by decide)]
        exact findTag_setOrCreateText_self mB "htsp" (fmt hv)
      · intro h; exact Option.noConfusion h
      · intro cv' h
        injection h with h'
        subst h'
        rw [hdoc]
        unfold qManualChildText
        rw [t3 "clsp", u2]
        exact findTag_setOrCreateText_self (setOrCreateText mB "htsp" (fmt hv)) "clsp" (fmt cv)
      · intro h; exact Option.noConfusion h

/-- Evaluation of the shared final edit-and-push, when the manual activity
and the zone's `hold` element were both located. -/
theorem phase2_eval {α : Type} (env : STEnv) (pushIdx : Nat) (config : XElem)
    (zid : String) (heat cool : Option α) (fmt : α → String)
    (holdUntil : Option String) (now : String) (tr : List Action) (mX hX : XElem)
    (hq : qManual config zid = some mX)
    (hqh : qZoneChild config zid "hold" = some hX) :
    phase2 env pushIdx config zid heat cool fmt holdUntil now tr =
      ((if env.pushOkAt pushIdx then STOut.success
        else STOut.failure "Failed to set temperature"),
       tr ++ [Action.pushConfig (phase2Doc config zid heat cool fmt holdUntil now)] ++
         (if env.pushOkAt pushIdx then [Action.activate] else [])) := by
  unfold phase2
  rw [hq, hqh]
  cases env.pushOkAt pushIdx <;> simp

/-- Evaluation of `set_temperature` down to the shared final edit, in the
hold-initially-ON branch: first fetch and guards succeed, hold is on, the
clearing push succeeds, the re-fetch succeeds and re-locates the zone and
its activities. -/
theorem set_temperature_holdOn_eval {α : Type} (env : STEnv) (fmt : α → String)
    (now zoneId : String) (heat cool : Option α) (holdUntil : Option String)
    (c0 zs0 z0 acts0 m0 cB zsB zB actsB : XElem)
    (h1 : env.configAt 0 = some c0)
    (h2 : findTag c0 "zones" = some zs0)
    (h3 : (findallTag zs0 "zone").find? (fun z => getAttr z "id" == some zoneId) = some z0)
    (h4 : findTag z0 "activities" = some acts0)
    (h5 : (findallTag acts0 "activity").find? (fun a => getAttr a "id" == some "manual") = some m0)
    (hOn : holdIsOn z0 = true)
    (h8 : env.pushOkAt 0 = true)
    (h9 : env.configAt 1 = some cB)
    (h10 : findTag cB "zones" = some zsB)
    (h11 : (findallTag zsB "zone").find? (fun z => getAttr z "id" == some zoneId) = some zB)
    (h12 : findTag zB "activities" = some actsB) :
    set_temperature env fmt now zoneId heat cool holdUntil =
      phase2 env 1 cB zoneId heat cool fmt holdUntil now
        [Action.activate, Action.getConfig,
         Action.pushConfig (updateZone (updateZone c0 zoneId (fun z => ensureChild z "hold"))
           zoneId clearHoldZone),
         Action.sleep 3, Action.activate, Action.getConfig] := by
  simp [set_temperature, h1, h2, h3, h4, h5, hOn, h8, h9, h10, h11, h12]

/-- Evaluation of `set_temperature` down to the shared final edit, in the
hold-initially-OFF branch: a single edit-and-push on the first fetched
document (with the `hold` child ensured). -/
theorem set_temperature_holdOff_eval {α : Type} (env : STEnv) (fmt : α → String)
    (now zoneId : String) (heat cool : Option α) (holdUntil : Option String)
    (c0 zs0 z0 acts0 m0 : XElem)
    (h1 : env.configAt 0 = some c0)
    (h2 : findTag c0 "zones" = some zs0)
    (h3 : (findallTag zs0 "zone").find? (fun z => getAttr z "id" == some zoneId) = some z0)
    (h4 : findTag z0 "activities" = some acts0)
    (h5 : (findallTag acts0 "activity").find? (fun a => getAttr a "id" == some "manual") = some m0)
    (hOff : holdIsOn z0 = false) :
    set_temperature env fmt now zoneId heat cool holdUntil =
      phase2 env 0 (updateZone c0 zoneId (fun z => ensureChild z "hold")) zoneId
        heat cool fmt holdUntil now [Action.activate, Action.getConfig] := by
  simp [set_temperature, h1, h2, h3, h4, h5, hOff]

/-- The phase-one document edit: `hold` becomes `off`, and `holdActivity`
is cleared when present. -/
theorem clearHoldZone_props (z h0 : XElem) (h6 : findTag z "hold" = some h0) :
    (findTag (clearHoldZone z) "hold").map (fun c => c.text) = some (some "off") ∧
    ((findTag z "holdActivity").isSome = true →
      (findTag (clearHoldZone z) "holdActivity").map (fun c => c.text) = some (some "")) := by
  have fh : findTag (mapFirstTag z "hold" (fun h => { h with text := some "off" })) "hold" =
      some { h0 with text := some "off" } := by
    rw [findTag_mapFirstTag_same z "hold" (fun h => { h with text := some "off" })
      (fun _ => rfl), h6]
    rfl
  have fha : findTag (mapFirstTag z "hold" (fun h => { h with text := some "off" }))
      "holdActivity" = findTag z "holdActivity" :=
    findTag_mapFirstTag_ne z "hold" "holdActivity"
      (fun h => { h with text := some "off" }) (fun _ => rfl) (by decide)
  unfold clearHoldZone clearHoldActivity
  cases hha : findTag z "holdActivity" with
  | none =>
    rw [fha, hha]
    refine ⟨by rw [fh]; rfl, ?_⟩
    intro hcontra
    simp at hcontra
  | some ha =>
    rw [fha, hha]
    constructor
    · rw [findTag_mapFirstTag_ne _ "holdActivity" "hold"
        (fun x => { x with text := some "" }) (fun _ => rfl) (by decide), fh]
      rfl
    · intro _
      rw [findTag_mapFirstTag_same _ "holdActivity"
        (fun x => { x with text := some "" }) (fun _ => rfl), fha, hha]
      rfl

/-- **C1** — Two-phase hold transition.  With the target zone's hold
initially ON (and the guards, the clearing push and the re-fetch
succeeding), `set_temperature` issues exactly two config pushes in order:
first a push whose zone has `hold` `off` and its `holdActivity` cleared
(when present), then — after the fixed 3-second pause and a fresh config
re-fetch — a push whose zone has `hold` `on`, `holdActivity` `manual`,
each supplied setpoint written formatted by `fmt`, and each unsupplied
setpoint untouched (equal to the re-fetched document's value).  With hold
initially OFF, exactly one push is issued, with the same final-document
properties relative to the first fetched document. -/
theorem C1_two_phase_hold :
    (∀ (α : Type) (env : STEnv) (fmt : α → String) (now zoneId : String)
      (heat cool : Option α) (holdUntil : Option String)
      (c0 zs0 z0 acts0 m0 h0 cB zsB zB actsB mB hB : XElem),
      env.configAt 0 = some c0 →
      findTag c0 "zones" = some zs0 →
      (findallTag zs0 "zone").find? (fun z => getAttr z "id" == some zoneId) = some z0 →
      findTag z0 "activities" = some acts0 →
      (findallTag acts0 "activity").find? (fun a => getAttr a "id" == some "manual") = some m0 →
      findTag z0 "hold" = some h0 →
      h0.text = some "on" →
      env.pushOkAt 0 = true →
      env.configAt 1 = some cB →
      findTag cB "zones" = some zsB →
      (findallTag zsB "zone").find? (fun z => getAttr z "id" == some zoneId) = some zB →
      findTag zB "activities" = some actsB →
      (findallTag actsB "activity").find? (fun a => getAttr a "id" == some "manual") = some mB →
      findTag zB "hold" = some hB →
      ∃ dA dB,
        set_temperature env fmt now zoneId heat cool holdUntil =
          ((if env.pushOkAt 1 then STOut.success
            else STOut.failure "Failed to set temperature"),
            [Action.activate, Action.getConfig, Action.pushConfig dA, Action.sleep 3,
              Action.activate, Action.getConfig, Action.pushConfig dB] ++
              (if env.pushOkAt 1 then [Action.activate] else [])) ∧
        qZoneChildText dA zoneId "hold" = some (some "off") ∧
        ((findTag z0 "holdActivity").isSome = true →
          qZoneChildText dA zoneId "holdActivity" = some (some "")) ∧
        qZoneChildText dB zoneId "hold" = some (some "on") ∧
        qZoneChildText dB zoneId "holdActivity" = some (some "manual") ∧
        (∀ hv, heat = some hv →
          qManualChildText dB zoneId "htsp" = some (some (fmt hv))) ∧
        (heat = none →
          qManualChildText dB zoneId "htsp" = qManualChildText cB zoneId "htsp") ∧
        (∀ cv, cool = some cv →
          qManualChildText dB zoneId "clsp" = some (some (fmt cv))) ∧
        (cool = none →
          qManualChildText dB zoneId "clsp" = qManualChildText cB zoneId "clsp")) ∧
    (∀ (α : Type) (env : STEnv) (fmt : α → String) (now zoneId : String)
      (heat cool : Option α) (holdUntil : Option String) (c0 zs0 z0 acts0 m0 : XElem),
      env.configAt 0 = some c0 →
      findTag c0 "zones" = some zs0 →
      (findallTag zs0 "zone").find? (fun z => getAttr z "id" == some zoneId) = some z0 →
      findTag z0 "activities" = some acts0 →
      (findallTag acts0 "activity").find? (fun a => getAttr a "id" == some "manual") = some m0 →
      holdIsOn z0 = false →
      ∃ d,
        set_temperature env fmt now zoneId heat cool holdUntil =
          ((if env.pushOkAt 0 then STOut.success
            else STOut.failure "Failed to set temperature"),
            [Action.activate, Action.getConfig, Action.pushConfig d] ++
              (if env.pushOkAt 0 then [Action.activate] else [])) ∧
        qZoneChildText d zoneId "hold" = some (some "on") ∧
        qZoneChildText d zoneId "holdActivity" = some (some "manual") ∧
        (∀ hv, heat = some hv →
          qManualChildText d zoneId "htsp" = some (some (fmt hv))) ∧
        (heat = none →
          qManualChildText d zoneId "htsp" = qManualChildText c0 zoneId "htsp") ∧
        (∀ cv, cool = some cv →
          qManualChildText d zoneId "clsp" = some (some (fmt cv))) ∧
        (cool = none →
          qManualChildText d zoneId "clsp" = qManualChildText c0 zoneId "clsp")) := by
  constructor
  · intro α env fmt now zoneId heat cool holdUntil c0 zs0 z0 acts0 m0 h0 cB zsB zB
      actsB mB hB h1 h2 h3 h4 h5 h6 h7 h8 h9 h10 h11 h12 h13 h14
    have hOn : holdIsOn z0 = true := by simp [holdIsOn, h6, h7]
    have hzB : zoneOf cB zoneId = some zB := by unfold zoneOf; rw [h10]; exact h11
    have hmzB : manualOfZone zB = some mB := by unfold manualOfZone; rw [h12]; exact h13
    have hq : qManual cB zoneId = some mB := by unfold qManual; rw [hzB]; exact hmzB
    have hqh : qZoneChild cB zoneId "hold" = some hB := by
      unfold qZoneChild; rw [hzB]; exact h14
    have hbh : qManualChildText cB zoneId "htsp" =
        (findTag mB "htsp").map (fun c => c.text) := by
      unfold qManualChildText qManualChild; rw [hq]; rfl
    have hbc : qManualChildText cB zoneId "clsp" =
        (findTag mB "clsp").map (fun c => c.text) := by
      unfold qManualChildText qManualChild; rw [hq]; rfl
    have hz0 : zoneOf c0 zoneId = some z0 := by unfold zoneOf; rw [h2]; exact h3
    have hEns : ensureChild z0 "hold" = z0 :=
      ensureChild_of_found z0 "hold" (by rw [h6]; rfl)
    have hzc1 : zoneOf (updateZone c0 zoneId (fun z => ensureChild z "hold")) zoneId =
        some z0 := by
      rw [zoneOf_updateZone _ _ _ (fun z hzp => by rwa [zonePredB_ensureChild]), hz0]
      simp [hEns]
    have hzdA : zoneOf (updateZone (updateZone c0 zoneId (fun z => ensureChild z "hold"))
        zoneId clearHoldZone) zoneId = some (clearHoldZone z0) := by
      rw [zoneOf_updateZone _ _ _ (fun z hzp => by rwa [zonePredB_clearHoldZone]), hzc1]
      rfl
    obtain ⟨cp1, cp2⟩ := clearHoldZone_props z0 h0 h6
    obtain ⟨p1, p2, p3, p4, p5, p6⟩ :=
      phase2Doc_props cB zoneId heat cool fmt holdUntil now zB mB hB hzB hmzB h14
    refine ⟨updateZone (updateZone c0 zoneId (fun z => ensureChild z "hold"))
        zoneId clearHoldZone,
      phase2Doc cB zoneId heat cool fmt holdUntil now, ?_, ?_, ?_, p1, p2, p3, ?_, p5, ?_⟩
    · rw [set_temperature_holdOn_eval env fmt now zoneId heat cool holdUntil
        c0 zs0 z0 acts0 m0 cB zsB zB actsB h1 h2 h3 h4 h5 hOn h8 h9 h10 h11 h12,
        phase2_eval env 1 cB zoneId heat cool fmt holdUntil now _ mB hB hq hqh]
      simp
    · unfold qZoneChildText qZoneChild
      rw [hzdA]
      exact cp1
    · intro hsome
      unfold qZoneChildText qZoneChild
      rw [hzdA]
      exact cp2 hsome
    · intro hnone
      rw [p4 hnone, hbh]
    · intro hnone
      rw [p6 hnone, hbc]
  · intro α env fmt now zoneId heat cool holdUntil c0 zs0 z0 acts0 m0 h1 h2 h3 h4 h5 hOff
    have hz0 : zoneOf c0 zoneId = some z0 := by unfold zoneOf; rw [h2]; exact h3
    have hman0 : manualOfZone z0 = some m0 := by unfold manualOfZone; rw [h4]; exact h5
    have hzc1 : zoneOf (updateZone c0 zoneId (fun z => ensureChild z "hold")) zoneId =
        some (ensureChild z0 "hold") := by
      rw [zoneOf_updateZone _ _ _ (fun z hzp => by rwa [zonePredB_ensureChild]), hz0]
      rfl
    have hmanE : manualOfZone (ensureChild z0 "hold") = some m0 :=
      (manualOfZone_ensureChild_ne z0 "hold" (by decide)).trans hman0
    obtain ⟨hEe, hEeq⟩ :=
      Option.isSome_iff_exists.mp (findTag_ensureChild_self_isSome z0 "hold")
    have hq : qManual (updateZone c0 zoneId (fun z => ensureChild z "hold")) zoneId =
        some m0 := by
      unfold qManual; rw [hzc1]; exact hmanE
    have hqh : qZoneChild (updateZone c0 zoneId (fun z => ensureChild z "hold")) zoneId
        "hold" = some hEe := by
      unfold qZoneChild; rw [hzc1]; exact hEeq
    have hqc0 : qManual c0 zoneId = some m0 := by unfold qManual; rw [hz0]; exact hman0
    have hbh : qManualChildText c0 zoneId "htsp" =
        (findTag m0 "htsp").map (fun c => c.text) := by
      unfold qManualChildText qManualChild; rw [hqc0]; rfl
    have hbc : qManualChildText c0 zoneId "clsp" =
        (findTag m0 "clsp").map (fun c => c.text) := by
      unfold qManualChildText qManualChild; rw [hqc0]; rfl
    obtain ⟨p1, p2, p3, p4, p5, p6⟩ :=
      phase2Doc_props (updateZone c0 zoneId (fun z => ensureChild z "hold")) zoneId
        heat cool fmt holdUntil now (ensureChild z0 "hold") m0 hEe hzc1 hmanE hEeq
    refine ⟨phase2Doc (updateZone c0 zoneId (fun z => ensureChild z "hold")) zoneId
        heat cool fmt holdUntil now, ?_, p1, p2, p3, ?_, p5, ?_⟩
    · rw [set_temperature_holdOff_eval env fmt now zoneId heat cool holdUntil
        c0 zs0 z0 acts0 m0 h1 h2 h3 h4 h5 hOff,
        phase2_eval env 0 _ zoneId heat cool fmt holdUntil now _ m0 hEe hq hqh]
      simp
    · intro hnone
      rw [p4 hnone, hbh]
    · intro hnone
      rw [p6 hnone, hbc]

/-- Witness for C1 at concrete documents (hold initially ON, and hold
initially OFF), requesting heat 70.0 with no cool setpoint. -/
theorem C1_two_phase_hold_witness :
    (∃ dA dB,
      set_temperature envOnW (fun s : String => s) "NOW" "1" (some "70.0") none none =
        ((if envOnW.pushOkAt 1 then STOut.success
          else STOut.failure "Failed to set temperature"),
          [Action.activate, Action.getConfig, Action.pushConfig dA, Action.sleep 3,
            Action.activate, Action.getConfig, Action.pushConfig dB] ++
            (if envOnW.pushOkAt 1 then [Action.activate] else [])) ∧
      qZoneChildText dA "1" "hold" = some (some "off") ∧
      ((findTag zoneOnW "holdActivity").isSome = true →
        qZoneChildText dA "1" "holdActivity" = some (some "")) ∧
      qZoneChildText dB "1" "hold" = some (some "on") ∧
      qZoneChildText dB "1" "holdActivity" = some (some "manual") ∧
      (∀ hv, (some "70.0" : Option String) = some hv →
        qManualChildText dB "1" "htsp" = some (some hv)) ∧
      ((some "70.0" : Option String) = none →
        qManualChildText dB "1" "htsp" = qManualChildText cfgOffW "1" "htsp") ∧
      (∀ cv, (none : Option String) = some cv →
        qManualChildText dB "1" "clsp" = some (some cv)) ∧
      ((none : Option String) = none →
        qManualChildText dB "1" "clsp" = qManualChildText cfgOffW "1" "clsp")) ∧
    (∃ d,
      set_temperature envOffW (fun s : String => s) "NOW" "1" (some "70.0") none none =
        ((if envOffW.pushOkAt 0 then STOut.success
          else STOut.failure "Failed to set temperature"),
          [Action.activate, Action.getConfig, Action.pushConfig d] ++
            (if envOffW.pushOkAt 0 then [Action.activate] else [])) ∧
      qZoneChildText d "1" "hold" = some (some "on") ∧
      qZoneChildText d "1" "holdActivity" = some (some "manual") ∧
      (∀ hv, (some "70.0" : Option String) = some hv →
        qManualChildText d "1" "htsp" = some (some hv)) ∧
      ((some "70.0" : Option String) = none →
        qManualChildText d "1" "htsp" = qManualChildText cfgOffW "1" "htsp") ∧
      (∀ cv, (none : Option String) = some cv →
        qManualChildText d "1" "clsp" = some (some cv)) ∧
      ((none : Option String) = none →
        qManualChildText d "1" "clsp" = qManualChildText cfgOffW "1" "clsp")) :=
  ⟨C1_two_phase_hold.1 String envOnW (fun s => s) "NOW" "1" (some "70.0") none none
      cfgOnW ⟨"zones", [], none, [zoneOnW]⟩ zoneOnW actsW manualActW
      ⟨"hold", [], some "on", []⟩ cfgOffW ⟨"zones", [], none, [zoneOffW]⟩ zoneOffW
      actsW manualActW ⟨"hold", [], some "off", []⟩
      rfl rfl rfl rfl rfl rfl rfl rfl rfl rfl rfl rfl rfl rfl,
    C1_two_phase_hold.2 String envOffW (fun s => s) "NOW" "1" (some "70.0") none none
      cfgOffW ⟨"zones", [], none, [zoneOffW]⟩ zoneOffW actsW manualActW
      rfl rfl rfl rfl rfl rfl⟩

/-- **C5** — Missing-structure guards on the first fetch: when the fetched
config document lacks the `zones` section, the target zone, the zone's
`activities` section, or the `manual` activity, `set_temperature` returns
the corresponding not-found failure and issues no config push (the trace
is just the keepalive and the fetch). -/
theorem C5_not_found_guards {α : Type} (env : STEnv) (fmt : α → String)
    (now zoneId : String) (heat cool : Option α) (holdUntil : Option String)
    (c : XElem) (hc : env.configAt 0 = some c) :
    (findTag c "zones" = none →
      set_temperature env fmt now zoneId heat cool holdUntil =
        (STOut.failure "No zones found in config",
          [Action.activate, Action.getConfig])) ∧
    (∀ zs, findTag c "zones" = some zs →
      (findallTag zs "zone").find? (fun z => getAttr z "id" == some zoneId) = none →
      set_temperature env fmt now zoneId heat cool holdUntil =
        (STOut.failure ("Zone " ++ zoneId ++ " not found"),
          [Action.activate, Action.getConfig])) ∧
    (∀ zs z, findTag c "zones" = some zs →
      (findallTag zs "zone").find? (fun z => getAttr z "id" == some zoneId) = some z →
      findTag z "activities" = none →
      set_temperature env fmt now zoneId heat cool holdUntil =
        (STOut.failure "No activities found", [Action.activate, Action.getConfig])) ∧
    (∀ zs z acts, findTag c "zones" = some zs →
      (findallTag zs "zone").find? (fun z => getAttr z "id" == some zoneId) = some z →
      findTag z "activities" = some acts →
      (findallTag acts "activity").find? (fun a => getAttr a "id" == some "manual") = none →
      set_temperature env fmt now zoneId heat cool holdUntil =
        (STOut.failure "Manual activity not found",
          [Action.activate, Action.getConfig])) := by
  refine ⟨?_, ?_, ?_, ?_⟩
  · intro h
    simp [set_temperature, hc, h]
  · intro zs hzs h
    simp [set_temperature, hc, hzs, h]
  · intro zs z hzs hz h
    simp [set_temperature, hc, hzs, hz, h]
  · intro zs z acts hzs hz hacts h
    simp [set_temperature, hc, hzs, hz, hacts, h]

/-- Witness for C5 at concrete malformed documents. -/
theorem C5_not_found_guards_witness :
    set_temperature (⟨fun _ => some ⟨"config", [], none, []⟩, fun _ => true⟩ : STEnv)
        (fun s : String => s) "NOW" "1" (some "70.0") none none =
      (STOut.failure "No zones found in config",
        [Action.activate, Action.getConfig]) ∧
    set_temperature
        (⟨fun _ => some ⟨"config", [], none, [⟨"zones", [], none, []⟩]⟩,
          fun _ => true⟩ : STEnv)
        (fun s : String => s) "NOW" "1" (some "70.0") none none =
      (STOut.failure ("Zone " ++ "1" ++ " not found"),
        [Action.activate, Action.getConfig]) :=
  ⟨(C5_not_found_guards _ (fun s : String => s) "NOW" "1" (some "70.0") none none
      ⟨"config", [], none, []⟩ rfl).1 rfl,
   ((C5_not_found_guards _ (fun s : String => s) "NOW" "1" (some "70.0") none none
      ⟨"config", [], none, [⟨"zones", [], none, []⟩]⟩ rfl).2.1
      ⟨"zones", [], none, []⟩ rfl rfl)⟩

/-- **C10** — After a successful phase-one push and re-fetch, the
not-found guards are not reapplied: when the re-fetched document lacks
the `zones` section, the target zone, or the zone's `activities` section,
`set_temperature` ends in the uncaught-`AttributeError` outcome instead of
returning a failure result. -/
theorem C10_refetch_unguarded {α : Type} (env : STEnv) (fmt : α → String)
    (now zoneId : String) (heat cool : Option α) (holdUntil : Option String)
    (c0 zs0 z0 acts0 m0 h0 cB : XElem)
    (h1 : env.configAt 0 = some c0)
    (h2 : findTag c0 "zones" = some zs0)
    (h3 : (findallTag zs0 "zone").find? (fun z => getAttr z "id" == some zoneId) = some z0)
    (h4 : findTag z0 "activities" = some acts0)
    (h5 : (findallTag acts0 "activity").find? (fun a => getAttr a "id" == some "manual") = some m0)
    (h6 : findTag z0 "hold" = some h0)
    (h7 : h0.text = some "on")
    (h8 : env.pushOkAt 0 = true)
    (h9 : env.configAt 1 = some cB) :
    (findTag cB "zones" = none →
      (set_temperature env fmt now zoneId heat cool holdUntil).1 = STOut.attrError) ∧
    (∀ zsB, findTag cB "zones" = some zsB →
      (findallTag zsB "zone").find? (fun z => getAttr z "id" == some zoneId) = none →
      (set_temperature env fmt now zoneId heat cool holdUntil).1 = STOut.attrError) ∧
    (∀ zsB zB, findTag cB "zones" = some zsB →
      (findallTag zsB "zone").find? (fun z => getAttr z "id" == some zoneId) = some zB →
      findTag zB "activities" = none →
      (set_temperature env fmt now zoneId heat cool holdUntil).1 = STOut.attrError) := by
  have hOn : holdIsOn z0 = true := by simp [holdIsOn, h6, h7]
  refine ⟨?_, ?_, ?_⟩
  · intro h
    simp [set_temperature, h1, h2, h3, h4, h5, hOn, h8, h9, h]
  · intro zsB hzs h
    simp [set_temperature, h1, h2, h3, h4, h5, hOn, h8, h9, hzs, h]
  · intro zsB zB hzs hz h
    simp [set_temperature, h1, h2, h3, h4, h5, hOn, h8, h9, hzs, hz, h]

/-- Witness for C10: hold is ON, the clearing push succeeds, and the
re-fetched document has no `zones` section at all. -/
theorem C10_refetch_unguarded_witness :
    (set_temperature
      (⟨fun i => if i == 0 then some cfgOnW else some ⟨"config", [], none, []⟩,
        fun _ => true⟩ : STEnv)
      (fun s : String => s) "NOW" "1" (some "70.0") none none).1 = STOut.attrError :=
  (C10_refetch_unguarded _ (fun s : String => s) "NOW" "1" (some "70.0") none none
    cfgOnW ⟨"zones", [], none, [zoneOnW]⟩ zoneOnW actsW manualActW
    ⟨"hold", [], some "on", []⟩ ⟨"config", [], none, []⟩
    rfl rfl rfl rfl rfl rfl rfl rfl rfl).1 rfl

/-- **C7** — `set_mode` fetches the config, sets the `mode` text, stamps
the document timestamp, and pushes exactly once: the trace is keepalive,
fetch, then the single push of the edited document, with no sleep, no
second fetch, and no keepalive after the push; the pushed document's
`mode` text is the requested mode and its `timestamp` text is the fresh
stamp. -/
theorem C7_set_mode_single_push (env : STEnv) (mode now : String) (c me te : XElem)
    (hc : env.configAt 0 = some c)
    (hm : findTag c "mode" = some me)
    (ht : findTag c "timestamp" = some te) :
    set_mode env mode now =
      (env.pushOkAt 0,
        [Action.activate, Action.getConfig,
          Action.pushConfig (stampTimestamp (setModeText c mode) now)]) ∧
    (findTag (stampTimestamp (setModeText c mode) now) "mode").map (fun x => x.text) =
      some (some mode) ∧
    (findTag (stampTimestamp (setModeText c mode) now) "timestamp").map (fun x => x.text) =
      some (some now) := by
  have hsm := setModeText_of_found c mode me hm
  have hfm : findTag (setModeText c mode) "mode" = some { me with text := some mode } := by
    rw [hsm, findTag_mapFirstTag_same c "mode" (fun m => { m with text := some mode })
      (fun _ => rfl), hm]
    rfl
  have hft : findTag (setModeText c mode) "timestamp" = some te := by
    rw [hsm, findTag_mapFirstTag_ne c "mode" "timestamp"
      (fun m => { m with text := some mode }) (fun _ => rfl) (by decide)]
    exact ht
  have hst := stampTimestamp_of_found (setModeText c mode) now te hft
  refine ⟨?_, ?_, ?_⟩
  · simp [set_mode, hc]
  · rw [hst, findTag_mapFirstTag_ne _ "timestamp" "mode"
      (fun ts => { ts with text := some now }) (fun _ => rfl) (by decide), hfm]
    rfl
  · rw [hst, findTag_mapFirstTag_same _ "timestamp"
      (fun ts => { ts with text := some now }) (fun _ => rfl), hft]
    rfl

/-- Witness for C7 at a concrete config document. -/
theorem C7_set_mode_single_push_witness :
    set_mode (⟨fun _ => some ⟨"config", [], none,
        [⟨"mode", [], some "heat", []⟩, ⟨"timestamp", [], some "T", []⟩]⟩,
        fun _ => true⟩ : STEnv) "cool" "NOW" =
      ((⟨fun _ => some ⟨"config", [], none,
          [⟨"mode", [], some "heat", []⟩, ⟨"timestamp", [], some "T", []⟩]⟩,
          fun _ => true⟩ : STEnv).pushOkAt 0,
        [Action.activate, Action.getConfig,
          Action.pushConfig (stampTimestamp (setModeText ⟨"config", [], none,
            [⟨"mode", [], some "heat", []⟩, ⟨"timestamp", [], some "T", []⟩]⟩ "cool") "NOW")]) ∧
    (findTag (stampTimestamp (setModeText ⟨"config", [], none,
        [⟨"mode", [], some "heat", []⟩, ⟨"timestamp", [], some "T", []⟩]⟩ "cool") "NOW")
        "mode").map (fun x => x.text) = some (some "cool") ∧
    (findTag (stampTimestamp (setModeText ⟨"config", [], none,
        [⟨"mode", [], some "heat", []⟩, ⟨"timestamp", [], some "T", []⟩]⟩ "cool") "NOW")
        "timestamp").map (fun x => x.text) = some (some "NOW") :=
  C7_set_mode_single_push _ "cool" "NOW"
    ⟨"config", [], none, [⟨"mode", [], some "heat", []⟩, ⟨"timestamp", [], some "T", []⟩]⟩
    ⟨"mode", [], some "heat", []⟩ ⟨"timestamp", [], some "T", []⟩ rfl rfl rfl

/-- **C8** — For every raw mode string read from the status document, the
normalized mode returned by `get_mode` is `heat` for raw `gasheat`,
`electric` or `hpheat`; `cool` for raw `dehumidify`; and the raw value
unchanged for every other input; and `get_mode` applies exactly this
normalization to the `mode` element's text. -/
theorem C8_mode_normalization :
    (∀ raw : String, (raw = "gasheat" ∨ raw = "electric" ∨ raw = "hpheat") →
      normalizeMode (some raw) = some "heat") ∧
    normalizeMode (some "dehumidify") = some "cool" ∧
    (∀ raw : String, raw ≠ "gasheat" → raw ≠ "electric" → raw ≠ "hpheat" →
      raw ≠ "dehumidify" → normalizeMode (some raw) = some raw) ∧
    (∀ (st m : XElem), findTag st "mode" = some m →
      get_mode (some st) = normalizeMode m.text) := by
  refine ⟨?_, by decide, ?_, ?_⟩
  · rintro raw (rfl | rfl | rfl) <;> decide
  · intro raw h1 h2 h3 h4
    simp [normalizeMode, h1, h2, h3, h4]
  · intro st m h
    simp [get_mode, h]

/-- Witness for C8 at concrete inputs. -/
theorem C8_mode_normalization_witness :
    normalizeMode (some "gasheat") = some "heat" ∧
    normalizeMode (some "auto") = some "auto" ∧
    get_mode (some ⟨"status", [], none, [⟨"mode", [], some "hpheat", []⟩]⟩) =
      normalizeMode (some "hpheat") :=
  ⟨C8_mode_normalization.1 "gasheat" (Or.inl rfl),
   C8_mode_normalization.2.2.1 "auto" (by decide) (by decide) (by decide) (by decide),
   C8_mode_normalization.2.2.2 _ ⟨"mode", [], some "hpheat", []⟩ rfl⟩

/-- **C6 counterexample** — As stated, the claim fails: with a profile
yielding an empty present-zone set (here: no profile document at all,
`get_profile` returning `None`), `get_zones` still returns the status
zone whose id `1` is absent from the (empty) present set, because the
skip test `if present_zones and ...` is bypassed for a falsy (empty)
set. -/
theorem C6_join_filter_counterexample :
    ((get_zones (fun _ => none) (some statusW) none none).map Zone.id = ["1"]) ∧
    get_present_zones none = [] ∧
    ¬ (∀ z ∈ get_zones (fun _ => none) (some statusW) none none,
        z.id ∈ get_present_zones none) := by
  refine ⟨rfl, rfl, ?_⟩
  intro hAll
  have hzeq : get_zones (fun _ => none) (some statusW) none none =
      [buildZone (fun _ => none) [] ⟨"zone", [("id", "1")], none, []⟩] := rfl
  have hmem : buildZone (fun _ => none) [] ⟨"zone", [("id", "1")], none, []⟩ ∈
      get_zones (fun _ => none) (some statusW) none none := by
    rw [hzeq]
    exact List.mem_singleton.mpr rfl
  have hid := hAll _ hmem
  simp [get_present_zones, buildZone] at hid

/-- **C6 amended** — Soundness and completeness of the join and of the
conditional present filter.  Every zone returned by `get_zones` is built
(by `buildZone`, the status/config join keyed on zone id) from a `zone`
element of the status document's `zones` section, and, whenever the
present-zone set is non-empty, its id belongs to that set.  Conversely,
every status `zone` element whose id passes the filter — because the
present-zone set is empty (no filtering) or contains the id — yields its
built zone in the result. -/
theorem C6_join_and_nonempty_present_filter (pf : String → Option ℚ)
    (status config profile : Option XElem) :
    (∀ z ∈ get_zones pf status config profile,
      ∃ st zs ze, status = some st ∧ findTag st "zones" = some zs ∧
        ze ∈ findallTag zs "zone" ∧
        z = buildZone pf (configZonesOf config) ze ∧
        z.id = (getAttr ze "id").getD "" ∧
        (get_present_zones profile ≠ [] → z.id ∈ get_present_zones profile)) ∧
    (∀ st zs, status = some st → findTag st "zones" = some zs →
      ∀ ze ∈ findallTag zs "zone",
        (get_present_zones profile = [] ∨
          (getAttr ze "id").getD "" ∈ get_present_zones profile) →
        buildZone pf (configZonesOf config) ze ∈ get_zones pf status config profile) := by
  constructor
  · intro z hz
    cases status with
    | none => simp [get_zones] at hz
    | some st =>
      rw [get_zones] at hz
      cases hzs : findTag st "zones" with
      | none => rw [hzs] at hz; simp at hz
      | some zs =>
        rw [hzs] at hz
        simp only [List.mem_map] at hz
        obtain ⟨ze, hze, hbuild⟩ := hz
        obtain ⟨hmem, hkeep⟩ := List.mem_filter.mp hze
        refine ⟨st, zs, ze, rfl, hzs, hmem, hbuild.symm, by rw [← hbuild]; rfl, ?_⟩
        intro hne
        have hempty : (get_present_zones profile).isEmpty = false := by
          cases hp : get_present_zones profile with
          | nil => exact absurd hp hne
          | cons a as => rfl
        unfold keepZone at hkeep
        rw [hempty] at hkeep
        simp only [Bool.false_eq_true, if_false] at hkeep
        have hidz : z.id = (getAttr ze "id").getD "" := by rw [← hbuild]; rfl
        rw [hidz]
        simpa using hkeep
  · intro st zs hst hzs ze hze hpass
    subst hst
    have hkeep : keepZone (get_present_zones profile) ((getAttr ze "id").getD "") = true := by
      unfold keepZone
      cases hpass with
      | inl hempty => rw [hempty]; rfl
      | inr hmem =>
        cases hp : get_present_zones profile with
        | nil => rfl
        | cons a as =>
          rw [hp] at hmem
          simpa using hmem
    rw [get_zones, hzs]
    exact List.mem_map.mpr ⟨ze, List.mem_filter.mpr ⟨hze, hkeep⟩, rfl⟩

/-- Witness for the amended C6, with a profile marking zone 1 present:
the returned zone is the join of the status zone with the (absent) config
names and its id is in the present set, and conversely the status zone's
built value is in the result. -/
theorem C6_join_and_nonempty_present_filter_witness :
    (∃ st zs ze, (some statusW : Option XElem) = some st ∧
      findTag st "zones" = some zs ∧
      ze ∈ findallTag zs "zone" ∧
      buildZone (fun _ => none) [] ⟨"zone", [("id", "1")], none, []⟩ =
        buildZone (fun _ => none) (configZonesOf none) ze ∧
      (buildZone (fun _ => none) [] ⟨"zone", [("id", "1")], none, []⟩).id =
        (getAttr ze "id").getD "" ∧
      (get_present_zones (some profW) ≠ [] →
        (buildZone (fun _ => none) [] ⟨"zone", [("id", "1")], none, []⟩).id ∈
          get_present_zones (some profW))) ∧
    buildZone (fun _ => none) (configZonesOf none) ⟨"zone", [("id", "1")], none, []⟩ ∈
      get_zones (fun _ => none) (some statusW) none (some profW) :=
  ⟨(C6_join_and_nonempty_present_filter (fun _ => none) (some statusW) none
      (some profW)).1
    (buildZone (fun _ => none) [] ⟨"zone", [("id", "1")], none, []⟩)
    (by rw [show get_zones (fun _ => none) (some statusW) none (some profW) =
        [buildZone (fun _ => none) [] ⟨"zone", [("id", "1")], none, []⟩] from rfl]
        exact List.mem_singleton.mpr rfl),
   (C6_join_and_nonempty_present_filter (fun _ => none) (some statusW) none
      (some profW)).2
    statusW ⟨"zones", [], none, [⟨"zone", [("id", "1")], none, []⟩]⟩ rfl rfl
    ⟨"zone", [("id", "1")], none, []⟩ (List.mem_singleton.mpr rfl)
    (Or.inr (List.mem_singleton.mpr rfl))⟩

/-- **C4** — Scheme normalization: for every method, token, parameter set
and HMAC function, signing a URL with the secure scheme prefix yields the
same signature as signing its insecure-scheme counterpart, because the
base string always embeds the scheme-normalized (insecure-prefix) URL. -/
theorem C4_scheme_normalization (hm : String → String → String) (tok m : String)
    (ps : List (String × String)) (rest : String) :
    generate_oauth_signature hm tok m ("https://" ++ rest) ps =
      generate_oauth_signature hm tok m ("http://" ++ rest) ps ∧
    sigUrlOf ("https://" ++ rest) = sigUrlOf ("http://" ++ rest) := by
  refine ⟨?_, sigUrlOf_scheme rest⟩
  simp only [generate_oauth_signature, sigUrlOf_scheme rest]

/-- **C9** — Once the cached device-identifier list is non-empty,
`get_systems` returns it unchanged, leaves the cache unmodified, and
issues no discovery request. -/
theorem C9_systems_cache_immutable (cache : List String)
    (locResp : Option (List String)) (h : cache ≠ []) :
    get_systems cache locResp = (cache, cache, false) := by
  cases cache with
  | nil => exact absurd rfl h
  | cons a as => simp [get_systems]

/-- Witness for C9 at a concrete non-empty cache. -/
theorem C9_systems_cache_immutable_witness :
    get_systems ["SERIAL1"] none = (["SERIAL1"], ["SERIAL1"], false) :=
  C9_systems_cache_immutable ["SERIAL1"] none (by decide)

/-- **C2** (divergence at the failing input) — When the server answers 401
to every request, the authentication request issued by `login` never
returns: `_request` re-enters `login`, which re-issues the authentication
request with retry enabled, recursing without bound.  In the fuelled
embedding both calls return `none` for every fuel, so no bounded number of
re-authentications ever hands the second consecutive auth failure back to
the caller. -/
theorem C2_auth_request_diverges_on_persistent_401 (fuel : Nat) :
    ∀ (n : Nat) (tok : String),
      request (fun _ => ⟨401, none⟩) fuel n tok ReqKind.auth true = none ∧
      login (fun _ => ⟨401, none⟩) fuel n tok = none := by
  induction fuel with
  | zero => intro n tok; exact ⟨by simp [request], by simp [login]⟩
  | succ f ih =>
    intro n tok
    refine ⟨?_, ?_⟩
    · simp [request, (ih (n + 1) tok).2]
    · simp [login, (ih n tok).1]

/-- **C3** — The signing key is exactly `CONSUMER_SECRET & token`: before
authentication `self.access_token` is the empty string (line 83), so the
login request is signed with key `CONSUMER_SECRET ++ "&" ++ ""`; a
successful login stores the issued token, and every subsequent request is
signed with key `CONSUMER_SECRET ++ "&" ++ token`; and the signature
engine feeds exactly that key to HMAC-SHA1. -/
theorem C3_signing_key (srv : Nat → Resp) (t : String) (req : ReqKind)
    (h0 : srv 0 = ⟨200, some t⟩) (h1 : ((srv 1).status == 401) = false) :
    login srv 2 0 "" = some (true, 1, t, [CONSUMER_SECRET ++ "&" ++ ""]) ∧
    request srv 1 1 t req true = some (srv 1, 2, t, [CONSUMER_SECRET ++ "&" ++ t]) ∧
    ∀ (hm : String → String → String) (tok m u : String)
      (ps : List (String × String)),
      generate_oauth_signature hm tok m u ps =
        hm (CONSUMER_SECRET ++ "&" ++ tok) (baseStringOf m u ps) := by
  refine ⟨?_, ?_, ?_⟩
  · simp [login, request, h0, signingKey]
  · simp [request, h1, signingKey]
  · intro hm tok m u ps
    simp [generate_oauth_signature, baseStringOf, signingKey]

/-- Witness for C3 at a concrete server behaviour. -/
theorem C3_signing_key_witness :
    login (fun n => if n == 0 then (⟨200, some "TOKEN"⟩ : Resp) else ⟨200, none⟩)
        2 0 "" = some (true, 1, "TOKEN", [CONSUMER_SECRET ++ "&" ++ ""]) ∧
    request (fun n => if n == 0 then (⟨200, some "TOKEN"⟩ : Resp) else ⟨200, none⟩)
        1 1 "TOKEN" (ReqKind.other "/systems/S/status") true =
      some ((fun n => if n == 0 then (⟨200, some "TOKEN"⟩ : Resp) else ⟨200, none⟩) 1,
        2, "TOKEN", [CONSUMER_SECRET ++ "&" ++ "TOKEN"]) ∧
    ∀ (hm : String → String → String) (tok m u : String)
      (ps : List (String × String)),
      generate_oauth_signature hm tok m u ps =
        hm (CONSUMER_SECRET ++ "&" ++ tok) (baseStringOf m u ps) :=
  C3_signing_key _ "TOKEN" (ReqKind.other "/systems/S/status") rfl rfl

end Bryant
